import Mathlib

/-!
# Conversation-Flow: the streaming clients

A shallow embedding of the receiver client (`src/speak.cpp`, class
`WebSocketClient`) and of the sender client (`src/main.cpp`, class
`AudioStreamer`), with the properties of their frame handling and of their
connection handling.

Conventions of the embedding.

* A `std::string` is the list of its chars (`Str`).  `std::string::npos` is
  `none`.
* Console output and the log file are not part of the model: neither is read
  back by the program, and no claim is about them.
* What a handler of the receiver does to the outside world is recorded as a
  list of `Effect`s, in program order.  An exception that leaves a function is
  the field `raised` of its `Outcome`.
* The connection state of a client is a record of its members; the calls it
  makes are appended to the ghost field `trace`.
* The transport's background thread is the sequence of the events it delivers.
  A handler runs to its end between two steps of the calling thread, and events
  arrive only where the calling thread waits: before the first test of the
  polling loop of `tryConnect`, during each of its sleeps, during the capture
  command and during the delays of the loop of `main`.
-/

namespace ConversationFlow

/-- A `std::string`, one list element per char. -/
abbrev Str := List Char

/-! ## `std::string` operations used by the clients -/

/-- Position of the first occurrence of `needle` in `s`, searching from the
start of `s`; `none` when there is none. -/
def findAux (needle : Str) : Str → Option Nat
  | [] => if needle.isPrefixOf [] then some 0 else none
  | c :: t =>
    if needle.isPrefixOf (c :: t) then some 0
    else (findAux needle t).map (· + 1)

/-- The call `s.find(needle, pos)`: the lowest position `i ≥ pos` at which
`needle` occurs in `s`, `none` for `npos`. -/
def find (s needle : Str) (pos : Nat) : Option Nat :=
  if s.length < pos then none
  else (findAux needle (s.drop pos)).map (· + pos)

/-- The call `s.substr(pos, n)`: raises `std::out_of_range` when `pos` is past
the end, otherwise the at most `n` chars from `pos` on. -/
def substr (s : Str) (pos n : Nat) : Except Str Str :=
  if s.length < pos then .error "basic_string::substr".toList
  else .ok ((s.drop pos).take n)

/-- The call `s.substr(pos)`: the chars from `pos` to the end. -/
def substrFrom (s : Str) (pos : Nat) : Except Str Str :=
  if s.length < pos then .error "basic_string::substr".toList
  else .ok (s.drop pos)

/-! ## The receiver: `WebSocketClient` of `src/speak.cpp` -/

/-- What a handler of the receiver does to the outside world. -/
inductive Effect where
  /-- The call `client.send(connection, frame, opcode::text)`. -/
  | send (frame : Str)
  /-- The call `ttsClient->textToSpeech(text, outputFile)`: the speech fetch. -/
  | textToSpeech (text outputFile : Str)
  /-- The call `ttsClient->playAudio(audioFile)`: the playback. -/
  | playAudio (audioFile : Str)
  /-- The call `std::filesystem::remove(file)`. -/
  | remove (file : Str)
  deriving DecidableEq, Repr

/-- The answers of the outside world to the calls of a handler. -/
structure Env where
  /-- Result of `getCurrentTimestamp()`. -/
  timestamp : Str
  /-- Result of `ttsClient->textToSpeech(text, outputFile)`. -/
  textToSpeech : Str → Str → Bool
  /-- Result of `ttsClient->playAudio(audioFile)`. -/
  playAudio : Str → Bool
  /-- Whether `client.send` without an error-code argument raises. -/
  sendRaises : Bool
  /-- Whether `std::filesystem::remove` raises. -/
  removeRaises : Bool

/-- Effects of a call in program order, and the exception that left it. -/
structure Outcome where
  effects : List Effect
  raised : Option Str
  deriving DecidableEq, Repr

/-- A `try { ... } catch (const std::exception&)` block whose handler only
logs: the effects stay, the exception stops here. -/
def Outcome.caught (o : Outcome) : Outcome :=
  { o with raised := none }

/-- The literal `"\"navigation\""` of `handleServerMessage`. -/
def navigationMarker : Str := "\"navigation\"".toList

/-- The literal `"\"message\":\""` of `handleNavigationMessage`. -/
def messageKey : Str := "\"message\":\"".toList

/-- The body of the `try` block of `WebSocketClient::handleNavigationMessage`
(speak.cpp 273-294). -/
def handleNavigationMessageBody (env : Env) (payload : Str) : Outcome :=
  match find payload messageKey 0 with
  | none => ⟨[], none⟩
  | some found =>
    let messageStart := found + 11
    match find payload ['"'] messageStart with
    | none => ⟨[], none⟩
    | some messageEnd =>
      match substr payload messageStart (messageEnd - messageStart) with
      | .error e => ⟨[], some e⟩
      | .ok message =>
        if message.isEmpty then ⟨[], none⟩
        else
          let tempFile := "/tmp/tts_".toList ++ env.timestamp ++ ".wav".toList
          if env.textToSpeech message tempFile then
            ⟨[.textToSpeech message tempFile, .playAudio tempFile, .remove tempFile],
              if env.removeRaises then some "filesystem error".toList else none⟩
          else
            ⟨[.textToSpeech message tempFile], none⟩

/-- The function `WebSocketClient::handleNavigationMessage` (speak.cpp 271-301). -/
def handleNavigationMessage (env : Env) (payload : Str) : Outcome :=
  (handleNavigationMessageBody env payload).caught

/-- The body of the `try` block of `WebSocketClient::handleServerMessage`
(speak.cpp 227-262). -/
def handleServerMessageBody (env : Env) (message : Str) : Outcome :=
  match message with
  | [] => ⟨[], none⟩
  | type :: _ =>
    match (if message.length > 1 then substrFrom message 1 else .ok []) with
    | .error e => ⟨[], some e⟩
    | .ok payload =>
      if type = '0' then ⟨[], none⟩
      else if type = '2' then
        ⟨[.send ['3']], if env.sendRaises then some "send failed".toList else none⟩
      else if type = '4' then
        match find payload [','] 0 with
        | none => ⟨[], none⟩
        | some commaPos =>
          match substrFrom payload (commaPos + 1) with
          | .error e => ⟨[], some e⟩
          | .ok eventData =>
            if (find eventData navigationMarker 0).isSome then
              handleNavigationMessage env eventData
            else ⟨[], none⟩
      else ⟨[], none⟩

/-- The function `WebSocketClient::handleServerMessage` (speak.cpp 225-269). -/
def handleServerMessage (env : Env) (message : Str) : Outcome :=
  (handleServerMessageBody env message).caught

/-- The NavigationEvents a call extracted: the texts it handed to
`textToSpeech`. -/
def extracted (o : Outcome) : List Str :=
  o.effects.filterMap fun e =>
    match e with
    | .textToSpeech text _ => some text
    | _ => none

/-- The frames a call submitted to the transport. -/
def submitted (o : Outcome) : List Str :=
  o.effects.filterMap fun e =>
    match e with
    | .send frame => some frame
    | _ => none

/-! ## Base64 -/

/-- An `unsigned char`. -/
abbrev Byte := Fin 256

/-- Modelled from the spec: `websocketpp::base64_encode` is library code that
is not under `src/`; the spec says only that the bytes are base64-encoded.
This is the alphabet of standard base64 (RFC 4648), the library's table
`base64_chars`. -/
def base64_chars : Str :=
  "ABCDEFGHIJKLMNOPQRSTUVWXYZabcdefghijklmnopqrstuvwxyz0123456789+/".toList

/-- Modelled from the spec: the four 6-bit values that base64 makes of three
bytes, with the masks and shifts of the library's `base64_encode`; each value
is stored in an `unsigned char`. -/
def char_array_4 (a0 a1 a2 : Nat) : Nat × Nat × Nat × Nat :=
  (((a0 &&& 0xfc) >>> 2) % 256,
   (((a0 &&& 0x03) <<< 4) + ((a1 &&& 0xf0) >>> 4)) % 256,
   (((a1 &&& 0x0f) <<< 2) + ((a2 &&& 0xc0) >>> 6)) % 256,
   (a2 &&& 0x3f) % 256)

/-- The char `base64_chars[i]`. -/
def base64_char (i : Nat) : Char :=
  base64_chars.getD i '='

/-- Modelled from the spec: `websocketpp::base64_encode(input, len)`, which is
not under `src/`: every three bytes give four chars of the alphabet; a last
group of one or two bytes is filled with zero bytes, gives two or three chars
and is padded with `'='` to four. -/
def base64_encode : List Byte → Str
  | [] => []
  | [a0] =>
    let q := char_array_4 a0.val 0 0
    [base64_char q.1, base64_char q.2.1, '=', '=']
  | [a0, a1] =>
    let q := char_array_4 a0.val a1.val 0
    [base64_char q.1, base64_char q.2.1, base64_char q.2.2.1, '=']
  | a0 :: a1 :: a2 :: rest =>
    let q := char_array_4 a0.val a1.val a2.val
    base64_char q.1 :: base64_char q.2.1 :: base64_char q.2.2.1 :: base64_char q.2.2.2 ::
      base64_encode rest

/-- The value of a char of the base64 alphabet, `none` for any other char. -/
def base64_value (c : Char) : Option Nat :=
  if base64_chars.indexOf c < 64 then some (base64_chars.indexOf c) else none

/-- The byte that is the low eight bits of `n`. -/
def toByte (n : Nat) : Byte :=
  ⟨n % 256, Nat.mod_lt _ (by decide)⟩

/-- Standard base64 decoding (RFC 4648), as the spec's `decodeAudioField`
needs it: the text is read four chars at a time, four chars of the alphabet
give three bytes, and only the last group may be padded, with one `'='` (two
bytes) or two (one byte).  Any other text is refused. -/
def base64_decode : Str → Option (List Byte)
  | [] => some []
  | c0 :: c1 :: c2 :: c3 :: rest =>
    match base64_value c0, base64_value c1 with
    | some v0, some v1 =>
      if c3 = '=' then
        if rest ≠ [] then none
        else if c2 = '=' then some [toByte (v0 * 4 + v1 / 16)]
        else
          match base64_value c2 with
          | some v2 => some [toByte (v0 * 4 + v1 / 16), toByte (v1 % 16 * 16 + v2 / 4)]
          | none => none
      else
        match base64_value c2, base64_value c3, base64_decode rest with
        | some v2, some v3, some bytes =>
          some (toByte (v0 * 4 + v1 / 16) :: toByte (v1 % 16 * 16 + v2 / 4) ::
            toByte (v2 % 4 * 64 + v3) :: bytes)
        | _, _, _ => none
    | _, _ => none
  | _ => none

/-- The literal `"\"data\":\""` that opens the data field of an audio frame. -/
def dataKey : Str := "\"data\":\"".toList

/-- The data field of a frame as the spec reads it: the text between the first
`"data":"` and the next double quote. -/
def dataField (frame : Str) : Option Str :=
  match find frame dataKey 0 with
  | none => none
  | some found =>
    match find frame ['"'] (found + 8) with
    | none => none
    | some stop => some ((frame.drop (found + 8)).take (stop - (found + 8)))

/-- The spec's `decodeAudioField`: the standard base64 decoding of the data
field of a frame. -/
def decodeAudioField (frame : Str) : Option (List Byte) :=
  (dataField frame).bind base64_decode

/-! ## The connection handling shared by both clients

Both classes hold the same members `connection`, `clientThread`, `connected`
and `connectionFailed`, and register the same open, close and fail handlers.
The background thread that runs `client.run()` is the list of the events it
delivers: a handler runs to its end between two steps of the calling thread. -/

/-- What the transport's thread delivers to a client. -/
inductive Event where
  /-- The open handler runs. -/
  | onOpen
  /-- The close handler runs. -/
  | onClose
  /-- The fail handler runs. -/
  | onFail
  /-- The call `client.run()` raises and the thread's `catch` block runs. -/
  | runError
  deriving DecidableEq, Repr

/-- A call a client makes to the transport, to the system or to the file
system. -/
inductive Action where
  /-- The call `client.get_connection(url, ec)`. -/
  | getConnection (url : Str)
  /-- The call `connection->append_header(name, value)`. -/
  | appendHeader (name value : Str)
  /-- The call `client.connect(connection)`. -/
  | connect (handle : Option Nat)
  /-- The construction of `clientThread`, which runs `client.run()`. -/
  | startThread
  /-- The call `std::this_thread::sleep_for` of so many milliseconds. -/
  | sleep (ms : Nat)
  /-- The call `client.send(connection, frame, opcode::text, ec)`. -/
  | send (handle : Option Nat) (frame : Str)
  /-- The call `client.close(connection, close::status::normal, "")`. -/
  | close (handle : Option Nat)
  /-- The call `client.stop()`. -/
  | stop
  /-- The call `clientThread.join()`. -/
  | join
  /-- The call `std::system(cmd)`. -/
  | system (cmd : Str)
  /-- The call `std::filesystem::exists(file)`. -/
  | fileExists (file : Str)
  /-- The call `readWavFile(file)`. -/
  | readWavFile (file : Str)
  /-- The call `std::filesystem::remove(file, ec)`. -/
  | remove (file : Str)
  deriving DecidableEq, Repr

/-- The answers of the outside world to one call of `tryConnect`. -/
structure ConnectEnv where
  /-- Whether `client.get_connection` sets its error code. -/
  getConnectionFails : Bool
  /-- Whether `client.connect` raises, which the `catch` block of `tryConnect`
  turns into the result `false`. -/
  connectRaises : Bool
  /-- The events delivered by the transport's thread: `slots 0` between the
  call of `client.connect` and the first test of the polling loop, and
  `slots k`, for `k ≥ 1`, during the `k`-th sleep of 100 ms. -/
  slots : Nat → List Event

/-! ## The sender: `AudioStreamer` of `src/main.cpp` -/

/-- The members of `AudioStreamer` (main.cpp 251-257), with two ghost fields:
`created` counts the connections that `get_connection` has made, so that a
handle is the number of its connection, and `trace` lists the calls made so
far, oldest first. -/
structure AudioStreamer where
  /-- The member `connection`; `none` is the null pointer. -/
  connection : Option Nat
  /-- The value of `clientThread.joinable()`. -/
  threadJoinable : Bool
  connected : Bool
  connectionFailed : Bool
  clientId : Str
  created : Nat
  trace : List Action
  deriving DecidableEq, Repr

namespace AudioStreamer

/-- The state the constructor leaves (main.cpp 80-127, 255-256); `clientId` is
the result of `generateClientId()`. -/
def init (clientId : Str) : AudioStreamer :=
  { connection := none, threadJoinable := false, connected := false,
    connectionFailed := false, clientId := clientId, created := 0, trace := [] }

/-- Appends a call to the trace. -/
def record (s : AudioStreamer) (a : Action) : AudioStreamer :=
  { s with trace := s.trace ++ [a] }

/-- The text that `sendConfig` builds (main.cpp 172-180). -/
def configFrame : Str :=
  ("\x7b" ++ "\"type\":\"config\"," ++ "\"config\":\x7b" ++ "\"audio_format\":\"pcm16\","
    ++ "\"sample_rate\":16000," ++ "\"channels\":1," ++ "\"chunk_size\":1024" ++ "\x7d\x7d").toList

/-- The function `AudioStreamer::sendConfig` (main.cpp 169-189); the error code
of the send is only printed. -/
def sendConfig (s : AudioStreamer) : AudioStreamer :=
  if !s.connected then s
  else s.record (.send s.connection configFrame)

/-- The open handler (main.cpp 106-113). -/
def onOpen (s : AudioStreamer) : AudioStreamer :=
  sendConfig { s with connected := true, connectionFailed := false }

/-- The close handler (main.cpp 115-118). -/
def onClose (s : AudioStreamer) : AudioStreamer :=
  { s with connected := false }

/-- The fail handler (main.cpp 120-126). -/
def onFail (s : AudioStreamer) : AudioStreamer :=
  { s with connected := false, connectionFailed := true }

/-- The `catch` block of the background thread (main.cpp 149-153). -/
def onRunError (s : AudioStreamer) : AudioStreamer :=
  { s with connected := false, connectionFailed := true }

/-- One event of the transport's thread. -/
def handle (s : AudioStreamer) : Event → AudioStreamer
  | .onOpen => s.onOpen
  | .onClose => s.onClose
  | .onFail => s.onFail
  | .runError => s.onRunError

/-- The events of the transport's thread, in order. -/
def deliver (s : AudioStreamer) (events : List Event) : AudioStreamer :=
  events.foldl handle s

/-- The polling loop of `tryConnect` (main.cpp 158-160),
`for (int i = 0; i < 10 && !connected && !connectionFailed; ++i) sleep_for(100ms)`,
with `n = 10 - i` rounds left; the events of `slots (i + 1)` arrive during the
sleep of round `i`. -/
def waitForConnection (slots : Nat → List Event) : Nat → Nat → AudioStreamer → AudioStreamer
  | 0, _, s => s
  | n + 1, i, s =>
    if !s.connected && !s.connectionFailed then
      waitForConnection slots n (i + 1) ((s.record (.sleep 100)).deliver (slots (i + 1)))
    else s

/-- The function `AudioStreamer::tryConnect` (main.cpp 129-167): its result and
the state it leaves.  On an error `get_connection` returns a null pointer,
which is stored. -/
def tryConnect (s : AudioStreamer) (baseUrl : Str) (env : ConnectEnv) : Bool × AudioStreamer :=
  let fullUrl := baseUrl ++ "/api/asr-batch-stream/ws/".toList ++ s.clientId
  let s := s.record (.getConnection fullUrl)
  if env.getConnectionFails then
    (false, { s with connection := none })
  else
    let s := { s with connection := some s.created, created := s.created + 1 }
    let s := s.record (.connect s.connection)
    if env.connectRaises then (false, s)
    else
      let s := if !s.threadJoinable then { s.record .startThread with threadJoinable := true } else s
      let s := s.deliver (env.slots 0)
      let s := waitForConnection env.slots 10 0 s
      (s.connected, s)

/-- The function `AudioStreamer::disconnect` (main.cpp 195-214).  An exception
of `client.close` is swallowed; when `client.stop()` raises, `join` is
skipped. -/
def disconnect (s : AudioStreamer) (stopRaises : Bool) : AudioStreamer :=
  let s := if s.connection.isSome && s.connected then s.record (.close s.connection) else s
  let s := { s with connected := false }
  if s.threadJoinable then
    let s := s.record .stop
    if stopRaises then s
    else { s.record .join with threadJoinable := false }
  else s

/-- The function `AudioStreamer::isConnected` (main.cpp 216-218). -/
def isConnected (s : AudioStreamer) : Bool :=
  s.connected

/-- The text that `sendAudioData` builds (main.cpp 232-238) from the base64
text, the result of `getCurrentTimestamp()` and the client id. -/
def audioFrame (base64Data timestamp clientId : Str) : Str :=
  "\x7b".toList ++ "\"type\":\"audio\",".toList
    ++ "\"data\":\"".toList ++ base64Data ++ "\",".toList
    ++ "\"timestamp\":\"".toList ++ timestamp ++ "\",".toList
    ++ "\"client_id\":\"".toList ++ clientId ++ "\"".toList
    ++ "\x7d".toList

/-- The function `AudioStreamer::sendAudioData` (main.cpp 220-245): `now` is the
result of `getCurrentTimestamp()`, `ec` the error that `client.send` reports.
The result is the exception raised, if any. -/
def sendAudioData (s : AudioStreamer) (data : List Byte) (now : Str) (ec : Option Str) :
    Except Str Unit × AudioStreamer :=
  if !s.connected then
    (.error "WebSocket not connected".toList, s)
  else
    let base64Data := base64_encode data
    let s := s.record (.send s.connection (audioFrame base64Data now s.clientId))
    match ec with
    | some message => (.error ("Failed to send data: ".toList ++ message), s)
    | none => (.ok (), s)

end AudioStreamer

/-- The values of `main` (main.cpp 261-267): `device`, `format`, `rate` and
`wsUrl` are read from the environment, `duration` is the constant `"2"`. -/
structure Settings where
  device : Str
  duration : Str
  format : Str
  rate : Str
  wsUrl : Str

/-- The answers of the outside world during one iteration of the loop of
`main` (main.cpp 278-335). -/
structure IterationEnv where
  /-- The answers to the call of `tryConnect`, if there is one. -/
  connect : ConnectEnv
  /-- The events delivered during the sleep of 5 s after a failed connect. -/
  duringRetryDelay : List Event
  /-- Result of `timestampedFilename()`. -/
  filename : Str
  /-- Result of `std::system(recCmd)`. -/
  recStatus : Int
  /-- The events delivered while the capture command runs. -/
  duringCapture : List Event
  /-- The events delivered during the sleep of 1 s after a failed capture. -/
  duringErrorDelay : List Event
  /-- Result of `std::filesystem::exists(filename)`. -/
  fileExists : Bool
  /-- Result of `readWavFile(filename)`: the bytes, or the exception. -/
  readWavFile : Except Str (List Byte)
  /-- Result of `getCurrentTimestamp()`. -/
  now : Str
  /-- The error that `client.send` reports in `sendAudioData`. -/
  sendError : Option Str
  /-- Whether `client.stop()` raises in `disconnect`. -/
  stopRaises : Bool

/-- The capture command that `main` builds (main.cpp 291-296). -/
def recCmd (cfg : Settings) (filename : Str) : Str :=
  "arecord -D ".toList ++ cfg.device ++ " -d ".toList ++ cfg.duration
    ++ " -f ".toList ++ cfg.format ++ " -r ".toList ++ cfg.rate
    ++ " '".toList ++ filename ++ "'".toList

/-- One iteration of the loop of `main`, from the capture on (main.cpp 289-330).
A failure of `readWavFile` or of `sendAudioData` is caught by the inner `catch`
block, which calls `disconnect`; `std::filesystem::exists` is taken not to
raise, so that the outer `catch` block is not reached. -/
def captureAndSend (cfg : Settings) (s : AudioStreamer) (env : IterationEnv) : AudioStreamer :=
  let s := (s.record (.system (recCmd cfg env.filename))).deliver env.duringCapture
  if env.recStatus ≠ 0 then
    (s.record (.sleep 1000)).deliver env.duringErrorDelay
  else
    let s := s.record (.fileExists env.filename)
    if !env.fileExists then
      (s.record (.sleep 1000)).deliver env.duringErrorDelay
    else
      let s := s.record (.readWavFile env.filename)
      match env.readWavFile with
      | .error _ => s.disconnect env.stopRaises
      | .ok audioData =>
        match s.sendAudioData audioData env.now env.sendError with
        | (.error _, s) => s.disconnect env.stopRaises
        | (.ok _, s) => s.record (.remove env.filename)

/-- One iteration of the loop of `main` (main.cpp 278-335). -/
def mainIteration (cfg : Settings) (s : AudioStreamer) (env : IterationEnv) : AudioStreamer :=
  if !s.isConnected then
    match s.tryConnect cfg.wsUrl env.connect with
    | (false, s) => (s.record (.sleep 5000)).deliver env.duringRetryDelay
    | (true, s) => captureAndSend cfg s env
  else captureAndSend cfg s env

/-! ## The connection handling of the receiver -/

/-- The members of `WebSocketClient` that its connection handling uses
(speak.cpp 411-416), with the ghost fields `created` and `trace` as for
`AudioStreamer`. -/
structure WebSocketClient where
  /-- The member `connection`; `none` is the null pointer. -/
  connection : Option Nat
  /-- The value of `clientThread.joinable()`. -/
  threadJoinable : Bool
  connected : Bool
  connectionFailed : Bool
  deviceId : Str
  created : Nat
  trace : List Action
  deriving DecidableEq, Repr

namespace WebSocketClient

/-- The state the constructor leaves (speak.cpp 157-223, 414-415). -/
def init : WebSocketClient :=
  { connection := none, threadJoinable := false, connected := false,
    connectionFailed := false, deviceId := "0612".toList, created := 0, trace := [] }

/-- Appends a call to the trace. -/
def record (s : WebSocketClient) (a : Action) : WebSocketClient :=
  { s with trace := s.trace ++ [a] }

/-- The text that `sendConnectPacket` builds (speak.cpp 351-352). -/
def connectPacket (deviceId : Str) : Str :=
  "40/tts,\x7b\"auth\":\x7b\"deviceId\":\"".toList ++ deviceId ++ "\"\x7d\x7d".toList

/-- The function `WebSocketClient::sendConnectPacket` (speak.cpp 347-361); the
error code of the send is only printed. -/
def sendConnectPacket (s : WebSocketClient) : WebSocketClient :=
  if !s.connected then s
  else s.record (.send s.connection (connectPacket s.deviceId))

/-- The open handler (speak.cpp 202-209). -/
def onOpen (s : WebSocketClient) : WebSocketClient :=
  sendConnectPacket { s with connected := true, connectionFailed := false }

/-- The close handler (speak.cpp 211-214). -/
def onClose (s : WebSocketClient) : WebSocketClient :=
  { s with connected := false }

/-- The fail handler (speak.cpp 216-222). -/
def onFail (s : WebSocketClient) : WebSocketClient :=
  { s with connected := false, connectionFailed := true }

/-- The `catch` block of the background thread (speak.cpp 327-331). -/
def onRunError (s : WebSocketClient) : WebSocketClient :=
  { s with connected := false, connectionFailed := true }

/-- One event of the transport's thread. -/
def handle (s : WebSocketClient) : Event → WebSocketClient
  | .onOpen => s.onOpen
  | .onClose => s.onClose
  | .onFail => s.onFail
  | .runError => s.onRunError

/-- The events of the transport's thread, in order. -/
def deliver (s : WebSocketClient) (events : List Event) : WebSocketClient :=
  events.foldl handle s

/-- The polling loop of `tryConnect` (speak.cpp 336-338), with `n = 10 - i`
rounds left; the events of `slots (i + 1)` arrive during the sleep of round
`i`. -/
def waitForConnection (slots : Nat → List Event) :
    Nat → Nat → WebSocketClient → WebSocketClient
  | 0, _, s => s
  | n + 1, i, s =>
    if !s.connected && !s.connectionFailed then
      waitForConnection slots n (i + 1) ((s.record (.sleep 100)).deliver (slots (i + 1)))
    else s

/-- The function `WebSocketClient::tryConnect` (speak.cpp 303-345): its result
and the state it leaves. -/
def tryConnect (s : WebSocketClient) (baseUrl : Str) (env : ConnectEnv) :
    Bool × WebSocketClient :=
  let handshakeUrl := baseUrl ++ "/socket.io/?EIO=4&transport=websocket".toList
  let s := s.record (.getConnection handshakeUrl)
  if env.getConnectionFails then
    (false, { s with connection := none })
  else
    let s := { s with connection := some s.created, created := s.created + 1 }
    let s := s.record (.appendHeader "ngrok-skip-browser-warning".toList "true".toList)
    let s := s.record (.appendHeader "User-Agent".toList "C++-SocketIO-Client".toList)
    let s := s.record (.connect s.connection)
    if env.connectRaises then (false, s)
    else
      let s := if !s.threadJoinable then { s.record .startThread with threadJoinable := true } else s
      let s := s.deliver (env.slots 0)
      let s := waitForConnection env.slots 10 0 s
      (s.connected, s)

/-- The function `WebSocketClient::disconnect` (speak.cpp 363-378). -/
def disconnect (s : WebSocketClient) (stopRaises : Bool) : WebSocketClient :=
  let s := if s.connection.isSome && s.connected then s.record (.close s.connection) else s
  let s := { s with connected := false }
  if s.threadJoinable then
    let s := s.record .stop
    if stopRaises then s
    else { s.record .join with threadJoinable := false }
  else s

/-- The function `WebSocketClient::isConnected` (speak.cpp 380-382). -/
def isConnected (s : WebSocketClient) : Bool :=
  s.connected

end WebSocketClient

/-! ## Auxiliary definitions for the statements -/

/-- The schedule of the transport's thread that delivers `events` in slot `k`
and nothing in any other slot. -/
def eventsAt (k : Nat) (events : List Event) : Nat → List Event :=
  fun j => if j = k then events else []

/-- The state of `AudioStreamer::tryConnect` after `client.connect` and the
start of the thread (main.cpp 132-155), when neither fails. -/
def AudioStreamer.connecting (s : AudioStreamer) (baseUrl : Str) : AudioStreamer :=
  { s with
    connection := some s.created
    created := s.created + 1
    threadJoinable := true
    trace := s.trace ++
      [.getConnection (baseUrl ++ "/api/asr-batch-stream/ws/".toList ++ s.clientId),
       .connect (some s.created)] ++ (if s.threadJoinable then [] else [.startThread]) }

/-- The state of `WebSocketClient::tryConnect` after `client.connect` and the
start of the thread (speak.cpp 306-333), when neither fails. -/
def WebSocketClient.connecting (s : WebSocketClient) (baseUrl : Str) : WebSocketClient :=
  { s with
    connection := some s.created
    created := s.created + 1
    threadJoinable := true
    trace := s.trace ++
      [.getConnection (baseUrl ++ "/socket.io/?EIO=4&transport=websocket".toList),
       .appendHeader "ngrok-skip-browser-warning".toList "true".toList,
       .appendHeader "User-Agent".toList "C++-SocketIO-Client".toList,
       .connect (some s.created)] ++ (if s.threadJoinable then [] else [.startThread]) }

/-- The state in which an iteration of the loop of `main` calls
`sendAudioData` (main.cpp 315), when the capture command has returned 0, the
file exists and `readWavFile` has returned. -/
def atSend (cfg : Settings) (s : AudioStreamer) (env : IterationEnv) : AudioStreamer :=
  ((((s.record (.system (recCmd cfg env.filename))).deliver env.duringCapture).record
    (.fileExists env.filename)).record (.readWavFile env.filename))

/-- A sender that is open on its first connection, with its thread running. -/
def openSender : AudioStreamer :=
  { connection := some 0, threadJoinable := true, connected := true, connectionFailed := false,
    clientId := "abcdef12".toList, created := 1, trace := [] }

/-- The values of `main` when the environment sets none of them. -/
def defaultSettings : Settings :=
  { device := "hw:5,0".toList, duration := "2".toList, format := "S16_LE".toList,
    rate := "16000".toList, wsUrl := "wss://robot-asr.pvi.digital".toList }

/-- An iteration in which the capture succeeds, the file holds two bytes, no
event arrives and the transport reports the error `sendError` for the send. -/
def quietIteration (sendError : Option Str) : IterationEnv :=
  { connect := { getConnectionFails := false, connectRaises := false, slots := fun _ => [] }
    duringRetryDelay := []
    filename := "rec_20250101_000000.wav".toList
    recStatus := 0
    duringCapture := []
    duringErrorDelay := []
    fileExists := true
    readWavFile := .ok [77, 97]
    now := "2025-01-01T00:00:00".toList
    sendError := sendError
    stopRaises := false }

/-! ## Runs of the clients -/

/-- What can happen to the sender between two observations of its state: an
event of the transport's thread, or a call of one of its public functions. -/
inductive SenderStep where
  | event (e : Event)
  | tryConnect (baseUrl : Str) (env : ConnectEnv)
  | disconnect (stopRaises : Bool)
  | sendConfig
  | sendAudioData (data : List Byte) (now : Str) (ec : Option Str)

/-- The state after one step of the sender. -/
def AudioStreamer.step (s : AudioStreamer) : SenderStep → AudioStreamer
  | .event e => s.handle e
  | .tryConnect baseUrl env => (s.tryConnect baseUrl env).2
  | .disconnect stopRaises => s.disconnect stopRaises
  | .sendConfig => s.sendConfig
  | .sendAudioData data now ec => (s.sendAudioData data now ec).2

/-- The state after a finite sequence of steps of the sender. -/
def AudioStreamer.run (s : AudioStreamer) (steps : List SenderStep) : AudioStreamer :=
  steps.foldl AudioStreamer.step s

/-- What can happen to the receiver between two observations of its state. -/
inductive ReceiverStep where
  | event (e : Event)
  | tryConnect (baseUrl : Str) (env : ConnectEnv)
  | disconnect (stopRaises : Bool)
  | sendConnectPacket

/-- The state after one step of the receiver. -/
def WebSocketClient.step (s : WebSocketClient) : ReceiverStep → WebSocketClient
  | .event e => s.handle e
  | .tryConnect baseUrl env => (s.tryConnect baseUrl env).2
  | .disconnect stopRaises => s.disconnect stopRaises
  | .sendConnectPacket => s.sendConnectPacket

/-- The state after a finite sequence of steps of the receiver. -/
def WebSocketClient.run (s : WebSocketClient) (steps : List ReceiverStep) : WebSocketClient :=
  steps.foldl WebSocketClient.step s

/-- Whether a call submits the configuration frame. -/
def isConfigSend : Action → Bool
  | .send _ frame => frame == AudioStreamer.configFrame
  | _ => false

/-- The number of configuration frames submitted in a trace. -/
def configCount (trace : List Action) : Nat :=
  trace.countP isConfigSend

/-! ## The dump server: `AudioServer` of `src/server.cpp` -/

/-- The opcode of a websocket frame (`websocketpp::frame::opcode`). -/
inductive Opcode where
  | continuation
  | text
  | binary
  | close
  | ping
  | pong
  deriving DecidableEq, Repr

/-- The files of the output directory: the bytes of each file that exists. -/
abbrev FileSystem := Str → Option (List Byte)

/-- The function `AudioServer::handle_message` (server.cpp 50-70): the files it
leaves.  `stamp` is the text that `strftime` makes of `%Y%m%d_%H%M%S`, and
`canOpen` says whether the `std::ofstream` could be opened; opening truncates
the file, and the write of an open file is taken to store all its bytes. -/
def handle_message (files : FileSystem) (opcode : Opcode) (payload : List Byte)
    (stamp : Str) (canOpen : Bool) : FileSystem :=
  if opcode = .binary then
    let filename := "output_test/rec_".toList ++ stamp ++ ".wav".toList
    if canOpen then
      fun name => if name = filename then some payload else files name
    else files
  else files

/-- The state in which an iteration of the loop of `main` starts the capture
(main.cpp 289): the state on entry when the sender was connected, the state that
`tryConnect` left otherwise. -/
def atCapture (cfg : Settings) (s : AudioStreamer) (env : IterationEnv) : AudioStreamer :=
  if s.isConnected then s else (s.tryConnect cfg.wsUrl env.connect).2

/-! ## Facts about `find` -/

theorem findAux_eq_some_of_first (needle : Str) :
    ∀ (s : Str) (i : Nat), needle <+: s.drop i → i ≤ s.length →
      (∀ j, j < i → ¬ needle <+: s.drop j) → findAux needle s = some i := by
  intro s
  induction s with
  | nil =>
    intro i hp hle _
    have hi : i = 0 := by simpa using hle
    subst hi
    simp only [List.drop_nil] at hp
    simp [findAux, hp]
  | cons c t ih =>
    intro i hp hle hmin
    cases i with
    | zero =>
      simp only [List.drop_zero] at hp
      simp [findAux, hp]
    | succ k =>
      have h0 : ¬ needle <+: c :: t := by simpa using hmin 0 (Nat.succ_pos k)
      have hk : findAux needle t = some k := by
        apply ih k
        · simpa using hp
        · simpa using hle
        · intro j hj
          simpa using hmin (j + 1) (Nat.succ_lt_succ hj)
      simp [findAux, h0, hk]

theorem findAux_eq_none_of_not_infix (needle : Str) :
    ∀ (s : Str), ¬ needle <:+: s → findAux needle s = none := by
  intro s
  induction s with
  | nil =>
    intro h
    have : ¬ needle <+: [] := fun hp => h hp.isInfix
    simp [findAux, this]
  | cons c t ih =>
    intro h
    rw [List.infix_cons_iff] at h
    have h1 : ¬ needle <+: c :: t := fun hp => h (Or.inl hp)
    have h2 : findAux needle t = none := ih (fun hp => h (Or.inr hp))
    simp [findAux, h1, h2]

theorem findAux_isSome_of_infix (needle : Str) :
    ∀ (s : Str), needle <:+: s → (findAux needle s).isSome = true := by
  intro s
  induction s with
  | nil =>
    intro h
    have : needle = [] := List.eq_nil_of_infix_nil h
    subst this
    simp [findAux]
  | cons c t ih =>
    intro h
    rw [List.infix_cons_iff] at h
    by_cases hp : needle <+: c :: t
    · simp [findAux, hp]
    · have := ih (h.resolve_left hp)
      simp only [findAux, List.isPrefixOf_iff_prefix, hp, if_false, Option.isSome_map']
      exact this

theorem find_zero (s needle : Str) : find s needle 0 = findAux needle s := by
  simp [find]

theorem find_of_le (s needle : Str) (pos : Nat) (h : pos ≤ s.length) :
    find s needle pos = (findAux needle (s.drop pos)).map (· + pos) := by
  simp [find, Nat.not_lt.mpr h]

/-- The first occurrence of a char that the text before it does not hold. -/
theorem findAux_singleton_append (c : Char) (a b : Str) (h : c ∉ a) :
    findAux [c] (a ++ c :: b) = some a.length := by
  apply findAux_eq_some_of_first
  · simp
  · simp
  · intro j hj hp
    rw [List.drop_append_of_le_length (Nat.le_of_lt hj)] at hp
    have hne : a.drop j ≠ [] := by
      intro hnil
      have := List.drop_eq_nil_iff.mp hnil
      omega
    obtain ⟨x, xs, hx⟩ := List.exists_cons_of_ne_nil hne
    rw [hx] at hp
    have hxc : c = x := by
      obtain ⟨r, hr⟩ := hp
      simp at hr
      exact hr.1
    have hmem : x ∈ a := List.mem_of_mem_drop (by rw [hx]; simp)
    exact h (hxc ▸ hmem)

/-! ## The receiver's frame handling -/

/-- What `handleServerMessage` does with a frame of packet code `'4'`. -/
theorem handleServerMessage_four (env : Env) (payload : Str) :
    handleServerMessage env ('4' :: payload) =
      match find payload [','] 0 with
      | none => ⟨[], none⟩
      | some commaPos =>
        if (find (payload.drop (commaPos + 1)) navigationMarker 0).isSome
            ∧ commaPos + 1 ≤ payload.length then
          handleNavigationMessage env (payload.drop (commaPos + 1))
        else ⟨[], none⟩ := by
  have h0 : ¬ ('4' = '0') := by decide
  have h2 : ¬ ('4' = '2') := by decide
  cases payload with
  | nil => simp [handleServerMessage, handleServerMessageBody, find, findAux, Outcome.caught]
  | cons x xs =>
    have hlen : ('4' :: x :: xs).length > 1 := by simp
    have hnlt : ¬ (('4' :: x :: xs).length < 1) := by simp
    simp only [handleServerMessage, handleServerMessageBody, substrFrom, hlen, hnlt, h0, h2,
      if_true, if_false, List.drop_succ_cons, List.drop_zero]
    cases hc : find (x :: xs) [','] 0 with
    | none => rfl
    | some commaPos =>
      simp only []
      by_cases hle : commaPos + 1 ≤ (x :: xs).length
      · have hnl : ¬ ((x :: xs).length < commaPos + 1) := Nat.not_lt.mpr hle
        simp only [hnl, if_false, hle, and_true]
        split
        · simp [handleNavigationMessage, Outcome.caught]
        · rfl
      · have hl : (x :: xs).length < commaPos + 1 := Nat.lt_of_not_le hle
        simp only [hl, if_true, hle, and_false, if_false]
        rfl

theorem handleNavigationMessage_effects (env : Env) (d pre m rest : Str)
    (hd : d = pre ++ messageKey ++ m ++ '"' :: rest)
    (hfirst : ∀ j, j < pre.length → ¬ messageKey <+: d.drop j)
    (hm : m ≠ []) (hq : '"' ∉ m) :
    (handleNavigationMessage env d).effects =
      .textToSpeech m ("/tmp/tts_".toList ++ env.timestamp ++ ".wav".toList) ::
        (if env.textToSpeech m ("/tmp/tts_".toList ++ env.timestamp ++ ".wav".toList) then
          [.playAudio ("/tmp/tts_".toList ++ env.timestamp ++ ".wav".toList),
           .remove ("/tmp/tts_".toList ++ env.timestamp ++ ".wav".toList)]
         else []) := by
  have hklen : messageKey.length = 11 := by decide
  have h1 : find d messageKey 0 = some pre.length := by
    rw [find_zero]
    apply findAux_eq_some_of_first
    · rw [hd]
      simp [List.append_assoc]
    · rw [hd]
      simp only [List.length_append]
      omega
    · exact hfirst
  have hdrop : d.drop (pre.length + 11) = m ++ '"' :: rest := by
    rw [hd, ← hklen, ← List.length_append, List.append_assoc (pre ++ messageKey)]
    exact List.drop_left _ _
  have hle : pre.length + 11 ≤ d.length := by
    rw [hd]
    simp only [List.length_append, hklen]
    omega
  have h2 : find d ['"'] (pre.length + 11) = some (pre.length + 11 + m.length) := by
    rw [find_of_le _ _ _ hle, hdrop, findAux_singleton_append _ _ _ hq]
    simp [Nat.add_comm]
  have h3 : substr d (pre.length + 11) (pre.length + 11 + m.length - (pre.length + 11))
      = .ok m := by
    simp only [substr, Nat.not_lt.mpr hle, if_false, hdrop, Nat.add_sub_cancel_left]
    simp
  have hne : m.isEmpty = false := by
    cases m with
    | nil => exact absurd rfl hm
    | cons x xs => rfl
  simp only [handleNavigationMessage, handleNavigationMessageBody, h1, h2, h3, hne,
    Outcome.caught, Bool.false_eq_true, if_false]
  split <;> rfl

/-- C1. Receiver event extraction: for a namespace text `ns` without a comma and
an event text `d` that holds the marker `"navigation"` and in which the first
occurrence of `"message":"` (at position `pre.length`) is followed by a
non-empty text `m` free of double quotes and then a double quote,
`handleServerMessage` applied to `'4' ++ ns ++ ',' ++ d` extracts exactly `m`,
the text it hands to `textToSpeech`. -/
theorem handleServerMessage_extracts_message (env : Env) (ns d pre m rest : Str)
    (hns : ',' ∉ ns)
    (hnav : navigationMarker <:+: d)
    (hd : d = pre ++ messageKey ++ m ++ '"' :: rest)
    (hfirst : ∀ j, j < pre.length → ¬ messageKey <+: d.drop j)
    (hm : m ≠ []) (hq : '"' ∉ m) :
    extracted (handleServerMessage env ('4' :: ns ++ ',' :: d)) = [m] := by
  have hcomma : find (ns ++ ',' :: d) [','] 0 = some ns.length := by
    rw [find_zero]
    exact findAux_singleton_append _ _ _ hns
  have hdr : (ns ++ ',' :: d).drop (ns.length + 1) = d := by
    have : ns ++ ',' :: d = (ns ++ [',']) ++ d := by simp
    rw [this]
    have hl : (ns ++ [',']).length = ns.length + 1 := by simp
    rw [← hl]
    exact List.drop_left _ _
  have hmark : (find d navigationMarker 0).isSome = true := by
    rw [find_zero]
    exact findAux_isSome_of_infix _ _ hnav
  have heff := handleNavigationMessage_effects env d pre m rest hd hfirst hm hq
  have hbody : (handleServerMessage env ('4' :: ns ++ ',' :: d)).effects
      = (handleNavigationMessage env d).effects := by
    have hle : ns.length + 1 ≤ (ns ++ ',' :: d).length := by
      simp only [List.length_append, List.length_cons]
      omega
    rw [show '4' :: ns ++ ',' :: d = '4' :: (ns ++ ',' :: d) by rfl,
      handleServerMessage_four, hcomma]
    simp only [hdr, hmark, hle, and_self, if_true]
  simp only [extracted, hbody, heff]
  split <;> simp

/-- The frame of the spec's example, `4/tts,["evt",{"navigation":true,"message":"go"}]`,
yields the message `go`. -/
theorem handleServerMessage_extracts_message_witness :
    extracted (handleServerMessage
        { timestamp := "20250101_000000".toList
          textToSpeech := fun _ _ => true
          playAudio := fun _ => true
          sendRaises := false
          removeRaises := false }
        "4/tts,[\"evt\",\x7b\"navigation\":true,\"message\":\"go\"\x7d]".toList)
      = ["go".toList] :=
  handleServerMessage_extracts_message _ "/tts".toList
    "[\"evt\",\x7b\"navigation\":true,\"message\":\"go\"\x7d]".toList
    "[\"evt\",\x7b\"navigation\":true,".toList "go".toList "\x7d]".toList
    (by decide) (by decide) (by decide) (by decide) (by decide) (by decide)

/-- C2. A NavigationEvent is extracted only if the marker is present: for a
frame with packet code `'4'` whose payload does not hold the literal
`"navigation"`, `handleServerMessage` has no effect at all: no speech fetch,
no playback, no frame, and nothing raised. -/
theorem handleServerMessage_no_marker (env : Env) (payload : Str)
    (h : ¬ navigationMarker <:+: payload) :
    handleServerMessage env ('4' :: payload) = ⟨[], none⟩ ∧
      extracted (handleServerMessage env ('4' :: payload)) = [] := by
  have key : handleServerMessage env ('4' :: payload) = ⟨[], none⟩ := by
    have hno : ∀ k, find (payload.drop k) navigationMarker 0 = none := by
      intro k
      rw [find_zero]
      apply findAux_eq_none_of_not_infix
      intro hin
      exact h (hin.trans (List.drop_suffix k payload).isInfix)
    rw [handleServerMessage_four]
    split
    · rfl
    · simp [hno]
  exact ⟨key, by rw [key]; rfl⟩

/-- The frame of the spec's example, `4/tts,["evt",{"other":1}]`, yields no
NavigationEvent. -/
theorem handleServerMessage_no_marker_witness :
    handleServerMessage
        { timestamp := [], textToSpeech := fun _ _ => true, playAudio := fun _ => true,
          sendRaises := false, removeRaises := false }
        "4/tts,[\"evt\",\x7b\"other\":1\x7d]".toList = ⟨[], none⟩ ∧
      extracted (handleServerMessage
        { timestamp := [], textToSpeech := fun _ _ => true, playAudio := fun _ => true,
          sendRaises := false, removeRaises := false }
        "4/tts,[\"evt\",\x7b\"other\":1\x7d]".toList) = [] :=
  handleServerMessage_no_marker _ "/tts,[\"evt\",\x7b\"other\":1\x7d]".toList (by decide)

/-- C3. Ping auto-reply: `handleServerMessage` applied to the frame `"2"`
submits exactly one outgoing frame, the text `"3"`, and does nothing else: no
NavigationEvent, no speech fetch, no playback, and nothing raised, also when
the send itself raises. -/
theorem handleServerMessage_ping (env : Env) :
    (handleServerMessage env ['2']).effects = [.send ['3']] ∧
      submitted (handleServerMessage env ['2']) = [['3']] ∧
      extracted (handleServerMessage env ['2']) = [] ∧
      (handleServerMessage env ['2']).raised = none := by
  refine ⟨?_, ?_, ?_, ?_⟩ <;>
    simp [handleServerMessage, handleServerMessageBody, Outcome.caught, submitted, extracted]

/-- C4. Malformed-frame tolerance: for the empty frame and for every frame
whose first char is none of `'0'`, `'2'`, `'4'`, `handleServerMessage` returns
without raising, submits no frame and extracts no NavigationEvent: it has no
effect at all. -/
theorem handleServerMessage_malformed (env : Env) (message : Str)
    (h : message = [] ∨ ∃ c rest, message = c :: rest ∧ c ≠ '0' ∧ c ≠ '2' ∧ c ≠ '4') :
    handleServerMessage env message = ⟨[], none⟩ := by
  rcases h with h | ⟨c, rest, h, h0, h2, h4⟩
  · subst h
    rfl
  · subst h
    simp only [handleServerMessage, handleServerMessageBody, substrFrom, Outcome.caught]
    split
    · rfl
    · simp only [h0, h2, h4, if_false]

/-- The frames `""` and `"9garbage"` of the spec's example. -/
theorem handleServerMessage_malformed_witness :
    handleServerMessage
        { timestamp := [], textToSpeech := fun _ _ => true, playAudio := fun _ => true,
          sendRaises := true, removeRaises := true } "9garbage".toList = ⟨[], none⟩ :=
  handleServerMessage_malformed _ "9garbage".toList
    (Or.inr ⟨'9', "garbage".toList, rfl, by decide, by decide, by decide⟩)

/-! ## Base64 round trip -/

set_option maxRecDepth 100000 in
theorem base64_value_char : ∀ i : Fin 64,
    base64_value (base64_char i.val) = some i.val ∧ base64_char i.val ≠ '='
      ∧ base64_char i.val ≠ '"' := by
  decide

set_option maxRecDepth 100000 in
theorem byte_masks : ∀ a : Fin 256,
    (a.val &&& 0xfc) >>> 2 = a.val / 4 ∧ (a.val &&& 0x03) <<< 4 = a.val % 4 * 16
      ∧ (a.val &&& 0xf0) >>> 4 = a.val / 16 ∧ (a.val &&& 0x0f) <<< 2 = a.val % 16 * 4
      ∧ (a.val &&& 0xc0) >>> 6 = a.val / 64 ∧ a.val &&& 0x3f = a.val % 64 := by
  decide

theorem char_array_4_eq (a0 a1 a2 : Byte) :
    char_array_4 a0.val a1.val a2.val =
      (a0.val / 4, a0.val % 4 * 16 + a1.val / 16, a1.val % 16 * 4 + a2.val / 64,
        a2.val % 64) := by
  obtain ⟨h01, h02, _, _, _, _⟩ := byte_masks a0
  obtain ⟨_, _, h13, h14, _, _⟩ := byte_masks a1
  obtain ⟨_, _, _, _, h25, h26⟩ := byte_masks a2
  have b0 := a0.isLt
  have b1 := a1.isLt
  have b2 := a2.isLt
  simp only [char_array_4, h01, h02, h13, h14, h25, h26, Prod.mk.injEq]
  refine ⟨?_, ?_, ?_, ?_⟩ <;> omega

theorem base64_value_of_lt (v : Nat) (h : v < 64) :
    base64_value (base64_char v) = some v ∧ base64_char v ≠ '=' ∧ base64_char v ≠ '"' :=
  base64_value_char ⟨v, h⟩

theorem toByte_val (a : Byte) (n : Nat) (h : n = a.val) : toByte n = a := by
  apply Fin.ext
  have := a.isLt
  simp only [toByte, h]
  omega

theorem base64_decode_encode : ∀ data : List Byte, base64_decode (base64_encode data) = some data
  | [] => rfl
  | [a0] => by
    have hz : ((0 : Byte).val) = 0 := rfl
    have hq := char_array_4_eq a0 0 0
    rw [hz] at hq
    have b0 := a0.isLt
    obtain ⟨v0, _, _⟩ := base64_value_of_lt (a0.val / 4) (by omega)
    obtain ⟨v1, _, _⟩ := base64_value_of_lt (a0.val % 4 * 16 + 0 / 16) (by omega)
    simp only [base64_encode, hq, base64_decode, v0, v1, if_true, ne_eq, not_true_eq_false,
      if_false, Option.some.injEq, List.cons.injEq, and_true]
    exact toByte_val _ _ (by omega)
  | [a0, a1] => by
    have hz : ((0 : Byte).val) = 0 := rfl
    have hq := char_array_4_eq a0 a1 0
    rw [hz] at hq
    have b0 := a0.isLt
    have b1 := a1.isLt
    obtain ⟨v0, _, _⟩ := base64_value_of_lt (a0.val / 4) (by omega)
    obtain ⟨v1, _, _⟩ := base64_value_of_lt (a0.val % 4 * 16 + a1.val / 16) (by omega)
    obtain ⟨v2, n2, _⟩ := base64_value_of_lt (a1.val % 16 * 4 + 0 / 64) (by omega)
    simp only [base64_encode, hq, base64_decode, v0, v1, v2, n2, if_true, ne_eq,
      not_true_eq_false, if_false, Option.some.injEq, List.cons.injEq, and_true]
    exact ⟨toByte_val _ _ (by omega), toByte_val _ _ (by omega)⟩
  | a0 :: a1 :: a2 :: rest => by
    have hq := char_array_4_eq a0 a1 a2
    have b0 := a0.isLt
    have b1 := a1.isLt
    have b2 := a2.isLt
    obtain ⟨v0, _, _⟩ := base64_value_of_lt (a0.val / 4) (by omega)
    obtain ⟨v1, _, _⟩ := base64_value_of_lt (a0.val % 4 * 16 + a1.val / 16) (by omega)
    obtain ⟨v2, _, _⟩ := base64_value_of_lt (a1.val % 16 * 4 + a2.val / 64) (by omega)
    obtain ⟨v3, n3, _⟩ := base64_value_of_lt (a2.val % 64) (by omega)
    have ih := base64_decode_encode rest
    simp only [base64_encode, hq, base64_decode, v0, v1, v2, v3, n3, ih, if_false,
      Option.some.injEq, List.cons.injEq, and_true]
    exact ⟨toByte_val _ _ (by omega), toByte_val _ _ (by omega), toByte_val _ _ (by omega)⟩

theorem quote_not_mem_base64_encode : ∀ data : List Byte, '"' ∉ base64_encode data
  | [] => by simp [base64_encode]
  | [a0] => by
    have hz : ((0 : Byte).val) = 0 := rfl
    have hq := char_array_4_eq a0 0 0
    rw [hz] at hq
    have b0 := a0.isLt
    obtain ⟨_, _, q0⟩ := base64_value_of_lt (a0.val / 4) (by omega)
    obtain ⟨_, _, q1⟩ := base64_value_of_lt (a0.val % 4 * 16 + 0 / 16) (by omega)
    simp only [base64_encode, hq, List.mem_cons, List.mem_singleton, not_or]
    exact ⟨Ne.symm q0, Ne.symm q1, by decide, by decide, by simp⟩
  | [a0, a1] => by
    have hz : ((0 : Byte).val) = 0 := rfl
    have hq := char_array_4_eq a0 a1 0
    rw [hz] at hq
    have b0 := a0.isLt
    have b1 := a1.isLt
    obtain ⟨_, _, q0⟩ := base64_value_of_lt (a0.val / 4) (by omega)
    obtain ⟨_, _, q1⟩ := base64_value_of_lt (a0.val % 4 * 16 + a1.val / 16) (by omega)
    obtain ⟨_, _, q2⟩ := base64_value_of_lt (a1.val % 16 * 4 + 0 / 64) (by omega)
    simp only [base64_encode, hq, List.mem_cons, List.mem_singleton, not_or]
    exact ⟨Ne.symm q0, Ne.symm q1, Ne.symm q2, by decide, by simp⟩
  | a0 :: a1 :: a2 :: rest => by
    have hq := char_array_4_eq a0 a1 a2
    have b0 := a0.isLt
    have b1 := a1.isLt
    have b2 := a2.isLt
    obtain ⟨_, _, q0⟩ := base64_value_of_lt (a0.val / 4) (by omega)
    obtain ⟨_, _, q1⟩ := base64_value_of_lt (a0.val % 4 * 16 + a1.val / 16) (by omega)
    obtain ⟨_, _, q2⟩ := base64_value_of_lt (a1.val % 16 * 4 + a2.val / 64) (by omega)
    obtain ⟨_, _, q3⟩ := base64_value_of_lt (a2.val % 64) (by omega)
    have ih := quote_not_mem_base64_encode rest
    simp only [base64_encode, hq, List.mem_cons, not_or]
    exact ⟨Ne.symm q0, Ne.symm q1, Ne.symm q2, Ne.symm q3, ih⟩

theorem dataField_audioFrame (base64Data timestamp clientId : Str) (h : '"' ∉ base64Data) :
    dataField (AudioStreamer.audioFrame base64Data timestamp clientId) = some base64Data := by
  have hshape : AudioStreamer.audioFrame base64Data timestamp clientId =
      "\x7b\"type\":\"audio\",".toList ++ dataKey ++ base64Data ++
        '"' :: (",\"timestamp\":\"".toList ++ timestamp ++ "\",".toList
          ++ "\"client_id\":\"".toList ++ clientId ++ "\"".toList ++ "\x7d".toList) := by
    simp [AudioStreamer.audioFrame, dataKey]
  generalize (",\"timestamp\":\"".toList ++ timestamp ++ "\",".toList
          ++ "\"client_id\":\"".toList ++ clientId ++ "\"".toList ++ "\x7d".toList) = rest
    at hshape
  rw [hshape]
  have h1 : find ("\x7b\"type\":\"audio\",".toList ++ dataKey ++ base64Data ++ '"' :: rest)
      dataKey 0 = some 16 := by
    rw [find_zero]
    apply findAux_eq_some_of_first
    · simp [dataKey]
    · simp
    · intro j hj
      interval_cases j <;> simp [dataKey]
  have hdrop : ("\x7b\"type\":\"audio\",".toList ++ dataKey ++ base64Data ++ '"' :: rest).drop
      (16 + 8) = base64Data ++ '"' :: rest := by
    simp [dataKey]
  have hle : 16 + 8 ≤
      ("\x7b\"type\":\"audio\",".toList ++ dataKey ++ base64Data ++ '"' :: rest).length := by
    simp [dataKey]
  have h2 : find ("\x7b\"type\":\"audio\",".toList ++ dataKey ++ base64Data ++ '"' :: rest)
      ['"'] (16 + 8) = some (16 + 8 + base64Data.length) := by
    rw [find_of_le _ _ _ hle, hdrop, findAux_singleton_append _ _ _ h]
    simp [Nat.add_comm]
  simp only [dataField, h1, h2, hdrop, Nat.add_sub_cancel_left]
  simp

/-- C5. Base64 round trip: for every byte sequence, every timestamp and every
client id, `sendAudioData` called while connected submits exactly one frame, the
audio frame built from `base64_encode data`, and the data field of that frame,
decoded as standard base64, is exactly the byte sequence. -/
theorem sendAudioData_base64_round_trip (s : AudioStreamer) (data : List Byte) (now : Str)
    (ec : Option Str) (h : s.connected = true) :
    (s.sendAudioData data now ec).2.trace =
        s.trace ++ [.send s.connection (AudioStreamer.audioFrame (base64_encode data) now s.clientId)]
      ∧ dataField (AudioStreamer.audioFrame (base64_encode data) now s.clientId)
          = some (base64_encode data)
      ∧ decodeAudioField (AudioStreamer.audioFrame (base64_encode data) now s.clientId)
          = some data := by
  have hfield := dataField_audioFrame (base64_encode data) now s.clientId
    (quote_not_mem_base64_encode data)
  refine ⟨?_, hfield, ?_⟩
  · simp only [AudioStreamer.sendAudioData, h, Bool.not_true, Bool.false_eq_true, if_false]
    cases ec <;> rfl
  · simp only [decodeAudioField, hfield, Option.some_bind]
    exact base64_decode_encode data

/-- The bytes `M`, `a` round-trip through the frame that an open connection
sends. -/
theorem sendAudioData_base64_round_trip_witness :
    decodeAudioField (AudioStreamer.audioFrame (base64_encode [77, 97])
      "2025-01-01T00:00:00".toList "abcdef12".toList) = some [77, 97] :=
  (sendAudioData_base64_round_trip
    { AudioStreamer.init "abcdef12".toList with connected := true } [77, 97]
    "2025-01-01T00:00:00".toList none rfl).2.2

/-! ## The sender's connection handling -/

namespace AudioStreamer

/-- The number of polling sleeps (of 100 ms) in a trace. -/
theorem count_sleep_record_sleep (s : AudioStreamer) :
    (s.record (.sleep 100)).trace.count (.sleep 100) = s.trace.count (.sleep 100) + 1 := by
  simp [record, List.count_append]

theorem handle_trace_grows (s : AudioStreamer) (e : Event) : s.trace <+: (s.handle e).trace := by
  cases e <;> simp [handle, onOpen, onClose, onFail, onRunError, sendConfig, record]

theorem handle_count_sleep (s : AudioStreamer) (e : Event) :
    (s.handle e).trace.count (.sleep 100) = s.trace.count (.sleep 100) := by
  cases e <;> simp [handle, onOpen, onClose, onFail, onRunError, sendConfig, record,
    List.count_append]

theorem deliver_cons (s : AudioStreamer) (e : Event) (events : List Event) :
    s.deliver (e :: events) = (s.handle e).deliver events := rfl

theorem deliver_nil (s : AudioStreamer) : s.deliver [] = s := rfl

theorem deliver_trace_grows (events : List Event) :
    ∀ s : AudioStreamer, s.trace <+: (s.deliver events).trace := by
  induction events with
  | nil => intro s; exact List.prefix_refl _
  | cons e es ih =>
    intro s
    rw [deliver_cons]
    exact (handle_trace_grows s e).trans (ih _)

theorem deliver_count_sleep (events : List Event) :
    ∀ s : AudioStreamer, (s.deliver events).trace.count (.sleep 100) = s.trace.count (.sleep 100) := by
  induction events with
  | nil => intro s; rfl
  | cons e es ih =>
    intro s
    rw [deliver_cons, ih, handle_count_sleep]

/-- Without an open event the flag `connected` stays false. -/
theorem deliver_not_connected (events : List Event) :
    ∀ s : AudioStreamer, s.connected = false → Event.onOpen ∉ events →
      (s.deliver events).connected = false := by
  induction events with
  | nil => intro s h _; exact h
  | cons e es ih =>
    intro s h hno
    rw [deliver_cons]
    apply ih
    · cases e
      · exact absurd (List.mem_cons_self _ _) hno
      · rfl
      · rfl
      · rfl
    · exact fun hm => hno (List.mem_cons_of_mem _ hm)

/-- Without an open event the state stays one of `connected = false`. -/
theorem deliver_flags_quiet (events : List Event) :
    ∀ s : AudioStreamer, s.connected = false → s.connectionFailed = false →
      Event.onOpen ∉ events → Event.onFail ∉ events → Event.runError ∉ events →
      (s.deliver events).connected = false ∧ (s.deliver events).connectionFailed = false := by
  induction events with
  | nil => intro s h1 h2 _ _ _; exact ⟨h1, h2⟩
  | cons e es ih =>
    intro s h1 h2 ho hf hr
    rw [deliver_cons]
    cases e
    · exact absurd (List.mem_cons_self _ _) ho
    · exact ih _ rfl h2 (fun hm => ho (List.mem_cons_of_mem _ hm))
        (fun hm => hf (List.mem_cons_of_mem _ hm)) (fun hm => hr (List.mem_cons_of_mem _ hm))
    · exact absurd (List.mem_cons_self _ _) hf
    · exact absurd (List.mem_cons_self _ _) hr

/-- Once open, the state stays open as long as no close, fail or thread error
arrives. -/
theorem deliver_stays_open (events : List Event) :
    ∀ s : AudioStreamer, s.connected = true → s.connectionFailed = false →
      Event.onClose ∉ events → Event.onFail ∉ events → Event.runError ∉ events →
      (s.deliver events).connected = true ∧ (s.deliver events).connectionFailed = false := by
  induction events with
  | nil => intro s h1 h2 _ _ _; exact ⟨h1, h2⟩
  | cons e es ih =>
    intro s h1 h2 hc hf hr
    rw [deliver_cons]
    cases e
    · apply ih _ _ _ (fun hm => hc (List.mem_cons_of_mem _ hm))
        (fun hm => hf (List.mem_cons_of_mem _ hm)) (fun hm => hr (List.mem_cons_of_mem _ hm))
      · simp [handle, onOpen, sendConfig, record]
      · simp [handle, onOpen, sendConfig, record]
    · exact absurd (List.mem_cons_self _ _) hc
    · exact absurd (List.mem_cons_self _ _) hf
    · exact absurd (List.mem_cons_self _ _) hr

theorem waitForConnection_stop (slots : Nat → List Event) (n i : Nat) (s : AudioStreamer)
    (h : s.connected = true ∨ s.connectionFailed = true) :
    waitForConnection slots n i s = s := by
  cases n with
  | zero => rfl
  | succ n =>
    rcases h with h | h <;> simp [waitForConnection, h]

theorem waitForConnection_step (slots : Nat → List Event) (n i : Nat) (s : AudioStreamer)
    (h1 : s.connected = false) (h2 : s.connectionFailed = false) :
    waitForConnection slots (n + 1) i s =
      waitForConnection slots n (i + 1) ((s.record (.sleep 100)).deliver (slots (i + 1))) := by
  simp [waitForConnection, h1, h2]

theorem waitForConnection_trace_grows (slots : Nat → List Event) :
    ∀ (n i : Nat) (s : AudioStreamer), s.trace <+: (waitForConnection slots n i s).trace := by
  intro n
  induction n with
  | zero => intro i s; exact List.prefix_refl _
  | succ n ih =>
    intro i s
    simp only [waitForConnection]
    split
    · refine List.IsPrefix.trans ?_ (ih _ _)
      refine List.IsPrefix.trans ?_ (deliver_trace_grows _ _)
      simp [record]
    · exact List.prefix_refl _

/-- The polling loop when the open event arrives during the `k`-th of the
sleeps still to come. -/
theorem waitForConnection_open (slots : Nat → List Event) (rest : List Event) :
    ∀ (k n i : Nat) (s : AudioStreamer), s.connected = false → s.connectionFailed = false →
      k + 1 ≤ n → (∀ j, i < j → j < i + (k + 1) → slots j = []) →
      slots (i + (k + 1)) = Event.onOpen :: rest →
      Event.onClose ∉ rest → Event.onFail ∉ rest → Event.runError ∉ rest →
      (waitForConnection slots n i s).connected = true
        ∧ (waitForConnection slots n i s).connectionFailed = false
        ∧ (waitForConnection slots n i s).trace.count (.sleep 100)
            = s.trace.count (.sleep 100) + (k + 1) := by
  intro k
  induction k with
  | zero =>
    intro n i s h1 h2 hn _ hopen hc hf hr
    obtain ⟨m, rfl⟩ : ∃ m, n = m + 1 := ⟨n - 1, by omega⟩
    rw [waitForConnection_step _ _ _ _ h1 h2]
    have hs : ((s.record (.sleep 100)).deliver (slots (i + 1))).connected = true
        ∧ ((s.record (.sleep 100)).deliver (slots (i + 1))).connectionFailed = false := by
      rw [show i + 1 = i + (0 + 1) by rfl, hopen, deliver_cons]
      apply deliver_stays_open _ _ _ _ hc hf hr
      · simp [handle, onOpen, sendConfig, record]
      · simp [handle, onOpen, sendConfig, record]
    rw [waitForConnection_stop _ _ _ _ (Or.inl hs.1)]
    refine ⟨hs.1, hs.2, ?_⟩
    rw [deliver_count_sleep, count_sleep_record_sleep]
  | succ k ih =>
    intro n i s h1 h2 hn hquiet hopen hc hf hr
    obtain ⟨m, rfl⟩ : ∃ m, n = m + 1 := ⟨n - 1, by omega⟩
    rw [waitForConnection_step _ _ _ _ h1 h2]
    have hempty : slots (i + 1) = [] := hquiet (i + 1) (by omega) (by omega)
    rw [hempty, deliver_nil]
    have := ih m (i + 1) (s.record (.sleep 100)) h1 h2 (by omega)
      (fun j hj1 hj2 => hquiet j (by omega) (by omega))
      (by rw [← hopen]; congr 1; omega) hc hf hr
    rw [count_sleep_record_sleep] at this
    refine ⟨this.1, this.2.1, ?_⟩
    rw [this.2.2]
    omega

/-- The polling loop when no open event arrives. -/
theorem waitForConnection_never_open (slots : Nat → List Event)
    (hno : ∀ j, Event.onOpen ∉ slots j) :
    ∀ (n i : Nat) (s : AudioStreamer), s.connected = false →
      (waitForConnection slots n i s).connected = false
        ∧ (waitForConnection slots n i s).trace.count (.sleep 100)
            ≤ s.trace.count (.sleep 100) + n := by
  intro n
  induction n with
  | zero => intro i s h; exact ⟨h, Nat.le_refl _⟩
  | succ n ih =>
    intro i s h
    simp only [waitForConnection]
    split
    · have := ih (i + 1) ((s.record (.sleep 100)).deliver (slots (i + 1)))
        (deliver_not_connected _ _ h (hno _))
      rw [deliver_count_sleep, count_sleep_record_sleep] at this
      exact ⟨this.1, by omega⟩
    · exact ⟨h, by omega⟩

/-- The polling loop when no event changes a flag: all `n` sleeps are made. -/
theorem waitForConnection_quiet (slots : Nat → List Event)
    (hno : ∀ j, Event.onOpen ∉ slots j) (hnf : ∀ j, Event.onFail ∉ slots j)
    (hnr : ∀ j, Event.runError ∉ slots j) :
    ∀ (n i : Nat) (s : AudioStreamer), s.connected = false → s.connectionFailed = false →
      (waitForConnection slots n i s).connected = false
        ∧ (waitForConnection slots n i s).connectionFailed = false
        ∧ (waitForConnection slots n i s).trace.count (.sleep 100)
            = s.trace.count (.sleep 100) + n := by
  intro n
  induction n with
  | zero => intro i s h1 h2; exact ⟨h1, h2, rfl⟩
  | succ n ih =>
    intro i s h1 h2
    rw [waitForConnection_step _ _ _ _ h1 h2]
    have hq := deliver_flags_quiet (slots (i + 1)) (s.record (.sleep 100)) h1 h2
      (hno _) (hnf _) (hnr _)
    have := ih (i + 1) _ hq.1 hq.2
    rw [deliver_count_sleep, count_sleep_record_sleep] at this
    exact ⟨this.1, this.2.1, by omega⟩

end AudioStreamer

/-! ## The receiver's connection handling -/

namespace WebSocketClient

/-- The number of polling sleeps (of 100 ms) in a trace. -/
theorem ws_count_sleep_record_sleep (s : WebSocketClient) :
    (s.record (.sleep 100)).trace.count (.sleep 100) = s.trace.count (.sleep 100) + 1 := by
  simp [record, List.count_append]

theorem ws_handle_trace_grows (s : WebSocketClient) (e : Event) : s.trace <+: (s.handle e).trace := by
  cases e <;> simp [handle, onOpen, onClose, onFail, onRunError, sendConnectPacket, record]

theorem ws_handle_count_sleep (s : WebSocketClient) (e : Event) :
    (s.handle e).trace.count (.sleep 100) = s.trace.count (.sleep 100) := by
  cases e <;> simp [handle, onOpen, onClose, onFail, onRunError, sendConnectPacket, record,
    List.count_append]

theorem ws_deliver_cons (s : WebSocketClient) (e : Event) (events : List Event) :
    s.deliver (e :: events) = (s.handle e).deliver events := rfl

theorem ws_deliver_nil (s : WebSocketClient) : s.deliver [] = s := rfl

theorem ws_deliver_trace_grows (events : List Event) :
    ∀ s : WebSocketClient, s.trace <+: (s.deliver events).trace := by
  induction events with
  | nil => intro s; exact List.prefix_refl _
  | cons e es ih =>
    intro s
    rw [ws_deliver_cons]
    exact (ws_handle_trace_grows s e).trans (ih _)

theorem ws_deliver_count_sleep (events : List Event) :
    ∀ s : WebSocketClient, (s.deliver events).trace.count (.sleep 100) = s.trace.count (.sleep 100) := by
  induction events with
  | nil => intro s; rfl
  | cons e es ih =>
    intro s
    rw [ws_deliver_cons, ih, ws_handle_count_sleep]

/-- Without an open event the flag `connected` stays false. -/
theorem ws_deliver_not_connected (events : List Event) :
    ∀ s : WebSocketClient, s.connected = false → Event.onOpen ∉ events →
      (s.deliver events).connected = false := by
  induction events with
  | nil => intro s h _; exact h
  | cons e es ih =>
    intro s h hno
    rw [ws_deliver_cons]
    apply ih
    · cases e
      · exact absurd (List.mem_cons_self _ _) hno
      · rfl
      · rfl
      · rfl
    · exact fun hm => hno (List.mem_cons_of_mem _ hm)

/-- Without an open event the state stays one of `connected = false`. -/
theorem ws_deliver_flags_quiet (events : List Event) :
    ∀ s : WebSocketClient, s.connected = false → s.connectionFailed = false →
      Event.onOpen ∉ events → Event.onFail ∉ events → Event.runError ∉ events →
      (s.deliver events).connected = false ∧ (s.deliver events).connectionFailed = false := by
  induction events with
  | nil => intro s h1 h2 _ _ _; exact ⟨h1, h2⟩
  | cons e es ih =>
    intro s h1 h2 ho hf hr
    rw [ws_deliver_cons]
    cases e
    · exact absurd (List.mem_cons_self _ _) ho
    · exact ih _ rfl h2 (fun hm => ho (List.mem_cons_of_mem _ hm))
        (fun hm => hf (List.mem_cons_of_mem _ hm)) (fun hm => hr (List.mem_cons_of_mem _ hm))
    · exact absurd (List.mem_cons_self _ _) hf
    · exact absurd (List.mem_cons_self _ _) hr

/-- Once open, the state stays open as long as no close, fail or thread error
arrives. -/
theorem ws_deliver_stays_open (events : List Event) :
    ∀ s : WebSocketClient, s.connected = true → s.connectionFailed = false →
      Event.onClose ∉ events → Event.onFail ∉ events → Event.runError ∉ events →
      (s.deliver events).connected = true ∧ (s.deliver events).connectionFailed = false := by
  induction events with
  | nil => intro s h1 h2 _ _ _; exact ⟨h1, h2⟩
  | cons e es ih =>
    intro s h1 h2 hc hf hr
    rw [ws_deliver_cons]
    cases e
    · apply ih _ _ _ (fun hm => hc (List.mem_cons_of_mem _ hm))
        (fun hm => hf (List.mem_cons_of_mem _ hm)) (fun hm => hr (List.mem_cons_of_mem _ hm))
      · simp [handle, onOpen, sendConnectPacket, record]
      · simp [handle, onOpen, sendConnectPacket, record]
    · exact absurd (List.mem_cons_self _ _) hc
    · exact absurd (List.mem_cons_self _ _) hf
    · exact absurd (List.mem_cons_self _ _) hr

theorem ws_waitForConnection_stop (slots : Nat → List Event) (n i : Nat) (s : WebSocketClient)
    (h : s.connected = true ∨ s.connectionFailed = true) :
    waitForConnection slots n i s = s := by
  cases n with
  | zero => rfl
  | succ n =>
    rcases h with h | h <;> simp [waitForConnection, h]

theorem ws_waitForConnection_step (slots : Nat → List Event) (n i : Nat) (s : WebSocketClient)
    (h1 : s.connected = false) (h2 : s.connectionFailed = false) :
    waitForConnection slots (n + 1) i s =
      waitForConnection slots n (i + 1) ((s.record (.sleep 100)).deliver (slots (i + 1))) := by
  simp [waitForConnection, h1, h2]

theorem ws_waitForConnection_trace_grows (slots : Nat → List Event) :
    ∀ (n i : Nat) (s : WebSocketClient), s.trace <+: (waitForConnection slots n i s).trace := by
  intro n
  induction n with
  | zero => intro i s; exact List.prefix_refl _
  | succ n ih =>
    intro i s
    simp only [waitForConnection]
    split
    · refine List.IsPrefix.trans ?_ (ih _ _)
      refine List.IsPrefix.trans ?_ (ws_deliver_trace_grows _ _)
      simp [record]
    · exact List.prefix_refl _

/-- The polling loop when the open event arrives during the `k`-th of the
sleeps still to come. -/
theorem ws_waitForConnection_open (slots : Nat → List Event) (rest : List Event) :
    ∀ (k n i : Nat) (s : WebSocketClient), s.connected = false → s.connectionFailed = false →
      k + 1 ≤ n → (∀ j, i < j → j < i + (k + 1) → slots j = []) →
      slots (i + (k + 1)) = Event.onOpen :: rest →
      Event.onClose ∉ rest → Event.onFail ∉ rest → Event.runError ∉ rest →
      (waitForConnection slots n i s).connected = true
        ∧ (waitForConnection slots n i s).connectionFailed = false
        ∧ (waitForConnection slots n i s).trace.count (.sleep 100)
            = s.trace.count (.sleep 100) + (k + 1) := by
  intro k
  induction k with
  | zero =>
    intro n i s h1 h2 hn _ hopen hc hf hr
    obtain ⟨m, rfl⟩ : ∃ m, n = m + 1 := ⟨n - 1, by omega⟩
    rw [ws_waitForConnection_step _ _ _ _ h1 h2]
    have hs : ((s.record (.sleep 100)).deliver (slots (i + 1))).connected = true
        ∧ ((s.record (.sleep 100)).deliver (slots (i + 1))).connectionFailed = false := by
      rw [show i + 1 = i + (0 + 1) by rfl, hopen, ws_deliver_cons]
      apply ws_deliver_stays_open _ _ _ _ hc hf hr
      · simp [handle, onOpen, sendConnectPacket, record]
      · simp [handle, onOpen, sendConnectPacket, record]
    rw [ws_waitForConnection_stop _ _ _ _ (Or.inl hs.1)]
    refine ⟨hs.1, hs.2, ?_⟩
    rw [ws_deliver_count_sleep, ws_count_sleep_record_sleep]
  | succ k ih =>
    intro n i s h1 h2 hn hquiet hopen hc hf hr
    obtain ⟨m, rfl⟩ : ∃ m, n = m + 1 := ⟨n - 1, by omega⟩
    rw [ws_waitForConnection_step _ _ _ _ h1 h2]
    have hempty : slots (i + 1) = [] := hquiet (i + 1) (by omega) (by omega)
    rw [hempty, ws_deliver_nil]
    have := ih m (i + 1) (s.record (.sleep 100)) h1 h2 (by omega)
      (fun j hj1 hj2 => hquiet j (by omega) (by omega))
      (by rw [← hopen]; congr 1; omega) hc hf hr
    rw [ws_count_sleep_record_sleep] at this
    refine ⟨this.1, this.2.1, ?_⟩
    rw [this.2.2]
    omega

/-- The polling loop when no open event arrives. -/
theorem ws_waitForConnection_never_open (slots : Nat → List Event)
    (hno : ∀ j, Event.onOpen ∉ slots j) :
    ∀ (n i : Nat) (s : WebSocketClient), s.connected = false →
      (waitForConnection slots n i s).connected = false
        ∧ (waitForConnection slots n i s).trace.count (.sleep 100)
            ≤ s.trace.count (.sleep 100) + n := by
  intro n
  induction n with
  | zero => intro i s h; exact ⟨h, Nat.le_refl _⟩
  | succ n ih =>
    intro i s h
    simp only [waitForConnection]
    split
    · have := ih (i + 1) ((s.record (.sleep 100)).deliver (slots (i + 1)))
        (ws_deliver_not_connected _ _ h (hno _))
      rw [ws_deliver_count_sleep, ws_count_sleep_record_sleep] at this
      exact ⟨this.1, by omega⟩
    · exact ⟨h, by omega⟩

/-- The polling loop when no event changes a flag: all `n` sleeps are made. -/
theorem ws_waitForConnection_quiet (slots : Nat → List Event)
    (hno : ∀ j, Event.onOpen ∉ slots j) (hnf : ∀ j, Event.onFail ∉ slots j)
    (hnr : ∀ j, Event.runError ∉ slots j) :
    ∀ (n i : Nat) (s : WebSocketClient), s.connected = false → s.connectionFailed = false →
      (waitForConnection slots n i s).connected = false
        ∧ (waitForConnection slots n i s).connectionFailed = false
        ∧ (waitForConnection slots n i s).trace.count (.sleep 100)
            = s.trace.count (.sleep 100) + n := by
  intro n
  induction n with
  | zero => intro i s h1 h2; exact ⟨h1, h2, rfl⟩
  | succ n ih =>
    intro i s h1 h2
    rw [ws_waitForConnection_step _ _ _ _ h1 h2]
    have hq := ws_deliver_flags_quiet (slots (i + 1)) (s.record (.sleep 100)) h1 h2
      (hno _) (hnf _) (hnr _)
    have := ih (i + 1) _ hq.1 hq.2
    rw [ws_deliver_count_sleep, ws_count_sleep_record_sleep] at this
    exact ⟨this.1, this.2.1, by omega⟩

end WebSocketClient

/-! ## `tryConnect` -/

theorem AudioStreamer.tryConnect_eq (s : AudioStreamer) (baseUrl : Str) (env : ConnectEnv)
    (hg : env.getConnectionFails = false) (hr : env.connectRaises = false) :
    s.tryConnect baseUrl env =
      ((AudioStreamer.waitForConnection env.slots 10 0
          ((s.connecting baseUrl).deliver (env.slots 0))).connected,
        AudioStreamer.waitForConnection env.slots 10 0
          ((s.connecting baseUrl).deliver (env.slots 0))) := by
  cases hj : s.threadJoinable <;>
    simp [AudioStreamer.tryConnect, AudioStreamer.connecting, AudioStreamer.record, hg, hr, hj]

theorem WebSocketClient.ws_tryConnect_eq (s : WebSocketClient) (baseUrl : Str) (env : ConnectEnv)
    (hg : env.getConnectionFails = false) (hr : env.connectRaises = false) :
    s.tryConnect baseUrl env =
      ((WebSocketClient.waitForConnection env.slots 10 0
          ((s.connecting baseUrl).deliver (env.slots 0))).connected,
        WebSocketClient.waitForConnection env.slots 10 0
          ((s.connecting baseUrl).deliver (env.slots 0))) := by
  cases hj : s.threadJoinable <;>
    simp [WebSocketClient.tryConnect, WebSocketClient.connecting, WebSocketClient.record, hg, hr,
      hj]

theorem AudioStreamer.connecting_count_sleep (s : AudioStreamer) (baseUrl : Str) :
    (s.connecting baseUrl).trace.count (.sleep 100) = s.trace.count (.sleep 100) := by
  cases hj : s.threadJoinable <;> simp [AudioStreamer.connecting, hj, List.count_append]

theorem WebSocketClient.ws_connecting_count_sleep (s : WebSocketClient) (baseUrl : Str) :
    (s.connecting baseUrl).trace.count (.sleep 100) = s.trace.count (.sleep 100) := by
  cases hj : s.threadJoinable <;> simp [WebSocketClient.connecting, hj, List.count_append]

/-- C6 as stated fails on the code.  First run: `tryConnect` is entered in
state Failed (`connected = false`, `connectionFailed = true`) and the open
event comes 100 ms later, in what would be the first polling interval; the
loop test fails at once on the flag that nothing has reset, no sleep is made and
the call returns false.  Second run: entered in state Disconnected, the open
event arrives during the first polling interval and a close event follows it in
the same interval; the call polls on and returns false. -/
theorem tryConnect_open_in_window_counterexample :
    Event.onOpen ∈ eventsAt 1 [Event.onOpen] 1
      ∧ Event.onOpen ∈ eventsAt 1 [Event.onOpen, Event.onClose] 1
      ∧ (AudioStreamer.tryConnect
        { AudioStreamer.init "abcdef12".toList with connectionFailed := true }
        "wss://host".toList
        { getConnectionFails := false, connectRaises := false,
          slots := eventsAt 1 [.onOpen] }).1 = false
      ∧ (AudioStreamer.tryConnect
        { AudioStreamer.init "abcdef12".toList with connectionFailed := true }
        "wss://host".toList
        { getConnectionFails := false, connectRaises := false,
          slots := eventsAt 1 [.onOpen] }).2.trace.count (.sleep 100) = 0
      ∧ (AudioStreamer.tryConnect (AudioStreamer.init "abcdef12".toList) "wss://host".toList
        { getConnectionFails := false, connectRaises := false,
          slots := eventsAt 1 [.onOpen, .onClose] }).1 = false := by
  refine ⟨?_, ?_, ?_, ?_, ?_⟩ <;> decide

/-- C6, amended.  `tryConnect` returns true exactly when creating the
connection succeeded and `connected` is true when the polling loop stops.  For
a call entered with `connected = false` and `connectionFailed = false` in which
creating the connection succeeds, and every `k` with `1 ≤ k ≤ 10`: if no event
is delivered before the `k`-th polling interval and the events of the `k`-th
interval are an open event followed by no close, fail or thread-error event,
the call returns true after exactly `k` sleeps of 100 ms and leaves
`connected = true`, `connectionFailed = false`. -/
theorem tryConnect_open_in_window (s : AudioStreamer) (baseUrl : Str) (env : ConnectEnv) :
    ((s.tryConnect baseUrl env).1 = true ↔
        env.getConnectionFails = false ∧ env.connectRaises = false
          ∧ (s.tryConnect baseUrl env).2.connected = true)
      ∧ ∀ (k : Nat) (rest : List Event),
          s.connected = false → s.connectionFailed = false →
          env.getConnectionFails = false → env.connectRaises = false →
          1 ≤ k → k ≤ 10 → (∀ j, j < k → env.slots j = []) →
          env.slots k = Event.onOpen :: rest →
          Event.onClose ∉ rest → Event.onFail ∉ rest → Event.runError ∉ rest →
          (s.tryConnect baseUrl env).1 = true
            ∧ (s.tryConnect baseUrl env).2.connected = true
            ∧ (s.tryConnect baseUrl env).2.connectionFailed = false
            ∧ (s.tryConnect baseUrl env).2.trace.count (.sleep 100)
                = s.trace.count (.sleep 100) + k := by
  constructor
  · cases hg : env.getConnectionFails
    · cases hr : env.connectRaises
      · rw [AudioStreamer.tryConnect_eq s baseUrl env hg hr]
        simp
      · simp [AudioStreamer.tryConnect, hg, hr]
    · simp [AudioStreamer.tryConnect, hg]
  · intro k rest h1 h2 hg hr hk1 hk hquiet hopen hc hf hre
    rw [AudioStreamer.tryConnect_eq s baseUrl env hg hr]
    obtain ⟨m, rfl⟩ : ∃ m, k = m + 1 := ⟨k - 1, by omega⟩
    rw [hquiet 0 (by omega), AudioStreamer.deliver_nil]
    have := AudioStreamer.waitForConnection_open env.slots rest m 10 0 (s.connecting baseUrl)
      h1 h2 hk (fun j _ hj => hquiet j (by omega)) (by rw [← hopen]; congr 1; omega) hc hf hre
    rw [AudioStreamer.connecting_count_sleep] at this
    exact ⟨this.1, this.1, this.2.1, this.2.2⟩

/-- The open event arrives alone during the third polling interval of a first
connection attempt: three sleeps, result true. -/
theorem tryConnect_open_in_window_witness :
    (AudioStreamer.tryConnect (AudioStreamer.init "abcdef12".toList) "wss://host".toList
        { getConnectionFails := false, connectRaises := false,
          slots := eventsAt 3 [.onOpen] }).1 = true
      ∧ (AudioStreamer.tryConnect (AudioStreamer.init "abcdef12".toList) "wss://host".toList
        { getConnectionFails := false, connectRaises := false,
          slots := eventsAt 3 [.onOpen] }).2.trace.count (.sleep 100) = 0 + 3 :=
  have h := (tryConnect_open_in_window (AudioStreamer.init "abcdef12".toList)
    "wss://host".toList
    { getConnectionFails := false, connectRaises := false, slots := eventsAt 3 [.onOpen] }).2
    3 [] rfl rfl rfl rfl (by decide) (by decide)
    (by intro j hj; simp only [eventsAt]; rw [if_neg (by omega)]) rfl
    (by simp) (by simp) (by simp)
  ⟨h.1, h.2.2.2⟩

/-- C7 as stated fails on the code: on a first connection attempt of either
client the transport never opens and its fail event arrives during the third
polling interval; the loop stops on `connectionFailed` and the call returns
false after 3 sleeps, not 10. -/
theorem tryConnect_timeout_counterexample :
    (∀ j, Event.onOpen ∉ eventsAt 3 [Event.onFail] j)
      ∧ (AudioStreamer.tryConnect (AudioStreamer.init "abcdef12".toList) "wss://host".toList
          { getConnectionFails := false, connectRaises := false,
            slots := eventsAt 3 [.onFail] }).1 = false
      ∧ (AudioStreamer.tryConnect (AudioStreamer.init "abcdef12".toList) "wss://host".toList
          { getConnectionFails := false, connectRaises := false,
            slots := eventsAt 3 [.onFail] }).2.trace.count (.sleep 100) = 3
      ∧ (WebSocketClient.tryConnect WebSocketClient.init "wss://host".toList
          { getConnectionFails := false, connectRaises := false,
            slots := eventsAt 3 [.onFail] }).1 = false
      ∧ (WebSocketClient.tryConnect WebSocketClient.init "wss://host".toList
          { getConnectionFails := false, connectRaises := false,
            slots := eventsAt 3 [.onFail] }).2.trace.count (.sleep 100) = 3 := by
  refine ⟨?_, ?_, ?_, ?_, ?_⟩
  · intro j
    simp only [eventsAt]
    split <;> simp
  all_goals decide

/-- C7, amended.  For both clients: if no open event is delivered during a call
of `tryConnect` entered with `connected = false`, the call returns false, leaves
`connected = false` and makes at most 10 sleeps of 100 ms; it makes exactly 10,
and leaves `connectionFailed = false`, when moreover `connectionFailed` was
false on entry, creating the connection succeeded and no fail event or thread
error is delivered. -/
theorem tryConnect_timeout (s : AudioStreamer) (w : WebSocketClient) (baseUrl : Str)
    (env : ConnectEnv) (hs : s.connected = false) (hw : w.connected = false)
    (hno : ∀ j, Event.onOpen ∉ env.slots j) :
    ((s.tryConnect baseUrl env).1 = false
        ∧ (s.tryConnect baseUrl env).2.connected = false
        ∧ (s.tryConnect baseUrl env).2.trace.count (.sleep 100) ≤ s.trace.count (.sleep 100) + 10
        ∧ (s.connectionFailed = false → env.getConnectionFails = false →
            env.connectRaises = false → (∀ j, Event.onFail ∉ env.slots j) →
            (∀ j, Event.runError ∉ env.slots j) →
            (s.tryConnect baseUrl env).2.connectionFailed = false
              ∧ (s.tryConnect baseUrl env).2.trace.count (.sleep 100)
                  = s.trace.count (.sleep 100) + 10))
      ∧ ((w.tryConnect baseUrl env).1 = false
        ∧ (w.tryConnect baseUrl env).2.connected = false
        ∧ (w.tryConnect baseUrl env).2.trace.count (.sleep 100) ≤ w.trace.count (.sleep 100) + 10
        ∧ (w.connectionFailed = false → env.getConnectionFails = false →
            env.connectRaises = false → (∀ j, Event.onFail ∉ env.slots j) →
            (∀ j, Event.runError ∉ env.slots j) →
            (w.tryConnect baseUrl env).2.connectionFailed = false
              ∧ (w.tryConnect baseUrl env).2.trace.count (.sleep 100)
                  = w.trace.count (.sleep 100) + 10)) := by
  constructor
  · have hgen : (s.tryConnect baseUrl env).1 = false
        ∧ (s.tryConnect baseUrl env).2.connected = false
        ∧ (s.tryConnect baseUrl env).2.trace.count (.sleep 100)
            ≤ s.trace.count (.sleep 100) + 10 := by
      cases hg : env.getConnectionFails
      · cases hr : env.connectRaises
        · rw [AudioStreamer.tryConnect_eq s baseUrl env hg hr]
          have h0 := AudioStreamer.deliver_not_connected (env.slots 0) (s.connecting baseUrl)
            hs (hno 0)
          have := AudioStreamer.waitForConnection_never_open env.slots hno 10 0 _ h0
          rw [AudioStreamer.deliver_count_sleep, AudioStreamer.connecting_count_sleep] at this
          exact ⟨this.1, this.1, this.2⟩
        · simp [AudioStreamer.tryConnect, AudioStreamer.record, hg, hr, hs, List.count_append]
      · simp [AudioStreamer.tryConnect, AudioStreamer.record, hg, hs, List.count_append]
    refine ⟨hgen.1, hgen.2.1, hgen.2.2, ?_⟩
    intro hf hg hr hnf hnr
    rw [AudioStreamer.tryConnect_eq s baseUrl env hg hr]
    have h0 := AudioStreamer.deliver_flags_quiet (env.slots 0) (s.connecting baseUrl)
      hs hf (hno 0) (hnf 0) (hnr 0)
    have := AudioStreamer.waitForConnection_quiet env.slots hno hnf hnr 10 0 _ h0.1 h0.2
    rw [AudioStreamer.deliver_count_sleep, AudioStreamer.connecting_count_sleep] at this
    exact ⟨this.2.1, this.2.2⟩
  · have hgen : (w.tryConnect baseUrl env).1 = false
        ∧ (w.tryConnect baseUrl env).2.connected = false
        ∧ (w.tryConnect baseUrl env).2.trace.count (.sleep 100)
            ≤ w.trace.count (.sleep 100) + 10 := by
      cases hg : env.getConnectionFails
      · cases hr : env.connectRaises
        · rw [WebSocketClient.ws_tryConnect_eq w baseUrl env hg hr]
          have h0 := WebSocketClient.ws_deliver_not_connected (env.slots 0)
            (w.connecting baseUrl) hw (hno 0)
          have := WebSocketClient.ws_waitForConnection_never_open env.slots hno 10 0 _ h0
          rw [WebSocketClient.ws_deliver_count_sleep,
            WebSocketClient.ws_connecting_count_sleep] at this
          exact ⟨this.1, this.1, this.2⟩
        · simp [WebSocketClient.tryConnect, WebSocketClient.record, hg, hr, hw,
            List.count_append]
      · simp [WebSocketClient.tryConnect, WebSocketClient.record, hg, hw, List.count_append]
    refine ⟨hgen.1, hgen.2.1, hgen.2.2, ?_⟩
    intro hf hg hr hnf hnr
    rw [WebSocketClient.ws_tryConnect_eq w baseUrl env hg hr]
    have h0 := WebSocketClient.ws_deliver_flags_quiet (env.slots 0) (w.connecting baseUrl)
      hw hf (hno 0) (hnf 0) (hnr 0)
    have := WebSocketClient.ws_waitForConnection_quiet env.slots hno hnf hnr 10 0 _ h0.1 h0.2
    rw [WebSocketClient.ws_deliver_count_sleep,
      WebSocketClient.ws_connecting_count_sleep] at this
    exact ⟨this.2.1, this.2.2⟩

/-- A first connection attempt of either client during which the transport
delivers nothing: false after exactly 10 sleeps. -/
theorem tryConnect_timeout_witness :
    (AudioStreamer.tryConnect (AudioStreamer.init "abcdef12".toList) "wss://host".toList
        { getConnectionFails := false, connectRaises := false, slots := fun _ => [] }).1 = false
      ∧ (AudioStreamer.tryConnect (AudioStreamer.init "abcdef12".toList) "wss://host".toList
        { getConnectionFails := false, connectRaises := false,
          slots := fun _ => [] }).2.trace.count (.sleep 100) = 0 + 10
      ∧ (WebSocketClient.tryConnect WebSocketClient.init "wss://host".toList
        { getConnectionFails := false, connectRaises := false, slots := fun _ => [] }).1 = false
      ∧ (WebSocketClient.tryConnect WebSocketClient.init "wss://host".toList
        { getConnectionFails := false, connectRaises := false,
          slots := fun _ => [] }).2.trace.count (.sleep 100) = 0 + 10 :=
  have h := tryConnect_timeout (AudioStreamer.init "abcdef12".toList) WebSocketClient.init
    "wss://host".toList
    { getConnectionFails := false, connectRaises := false, slots := fun _ => [] }
    rfl rfl (by intro j; simp)
  ⟨h.1.1, (h.1.2.2.2 rfl rfl rfl (by intro j; simp) (by intro j; simp)).2,
    h.2.1, (h.2.2.2.2 rfl rfl rfl (by intro j; simp) (by intro j; simp)).2⟩

/-- C10 as stated fails on the code: the sender is open on connection 0 with
its thread running and `tryConnect` is called again; the call returns true
without polling, but it has called `get_connection` and `connect` for a new
connection, number 1, and the stored handle is now that one. -/
theorem tryConnect_while_open_counterexample :
    AudioStreamer.tryConnect
        { connection := some 0, threadJoinable := true, connected := true,
          connectionFailed := false, clientId := "abcdef12".toList, created := 1, trace := [] }
        "wss://host".toList
        { getConnectionFails := false, connectRaises := false, slots := fun _ => [] }
      = (true,
        { connection := some 1, threadJoinable := true, connected := true,
          connectionFailed := false, clientId := "abcdef12".toList, created := 2,
          trace := [.getConnection "wss://host/api/asr-batch-stream/ws/abcdef12".toList,
            .connect (some 1)] }) := by
  decide

/-- C10, amended.  For both clients: a call of `tryConnect` entered with
`connected = true`, in which creating the connection succeeds and no event
arrives before the first loop test, returns true without any sleep, leaves
`connected` and `connectionFailed` unchanged and starts a background thread only
if none is joinable; it does create a new transport connection (`get_connection`
and `connect` are called) and stores the new handle in place of the old one. -/
theorem tryConnect_while_open (s : AudioStreamer) (w : WebSocketClient) (baseUrl : Str)
    (env : ConnectEnv) (hs : s.connected = true) (hw : w.connected = true)
    (hg : env.getConnectionFails = false) (hr : env.connectRaises = false)
    (h0 : env.slots 0 = []) :
    s.tryConnect baseUrl env =
        (true,
          { s with
            connection := some s.created
            created := s.created + 1
            threadJoinable := true
            trace := s.trace ++
              [.getConnection (baseUrl ++ "/api/asr-batch-stream/ws/".toList ++ s.clientId),
               .connect (some s.created)] ++ (if s.threadJoinable then [] else [.startThread]) })
      ∧ w.tryConnect baseUrl env =
        (true,
          { w with
            connection := some w.created
            created := w.created + 1
            threadJoinable := true
            trace := w.trace ++
              [.getConnection (baseUrl ++ "/socket.io/?EIO=4&transport=websocket".toList),
               .appendHeader "ngrok-skip-browser-warning".toList "true".toList,
               .appendHeader "User-Agent".toList "C++-SocketIO-Client".toList,
               .connect (some w.created)] ++ (if w.threadJoinable then [] else [.startThread]) }) := by
  constructor
  · have hc : (s.connecting baseUrl).connected = true := hs
    rw [AudioStreamer.tryConnect_eq s baseUrl env hg hr, h0, AudioStreamer.deliver_nil,
      AudioStreamer.waitForConnection_stop _ _ _ _ (Or.inl hc)]
    simp [AudioStreamer.connecting, hs]
  · have hc : (w.connecting baseUrl).connected = true := hw
    rw [WebSocketClient.ws_tryConnect_eq w baseUrl env hg hr, h0, WebSocketClient.ws_deliver_nil,
      WebSocketClient.ws_waitForConnection_stop _ _ _ _ (Or.inl hc)]
    simp [WebSocketClient.connecting, hw]

/-- Both clients open with their thread running: the second `tryConnect` returns
true. -/
theorem tryConnect_while_open_witness :
    (AudioStreamer.tryConnect
        { AudioStreamer.init "abcdef12".toList with
          connection := some 0, created := 1, threadJoinable := true, connected := true }
        "wss://host".toList
        { getConnectionFails := false, connectRaises := false, slots := fun _ => [] }).1 = true
      ∧ (WebSocketClient.tryConnect
        { WebSocketClient.init with
          connection := some 0, created := 1, threadJoinable := true, connected := true }
        "wss://host".toList
        { getConnectionFails := false, connectRaises := false, slots := fun _ => [] }).1 = true :=
  have h := tryConnect_while_open
    { AudioStreamer.init "abcdef12".toList with
      connection := some 0, created := 1, threadJoinable := true, connected := true }
    { WebSocketClient.init with
      connection := some 0, created := 1, threadJoinable := true, connected := true }
    "wss://host".toList
    { getConnectionFails := false, connectRaises := false, slots := fun _ => [] }
    rfl rfl rfl rfl rfl
  ⟨congrArg Prod.fst h.1, congrArg Prod.fst h.2⟩

/-! ## The loop of the sender -/

theorem AudioStreamer.record_trace_grows (s : AudioStreamer) (a : Action) :
    s.trace <+: (s.record a).trace := by
  simp [AudioStreamer.record]

theorem AudioStreamer.disconnect_connected (s : AudioStreamer) (stopRaises : Bool) :
    (s.disconnect stopRaises).connected = false := by
  cases h1 : (s.connection.isSome && s.connected) <;> cases h2 : s.threadJoinable <;>
    cases stopRaises <;>
    simp [AudioStreamer.disconnect, AudioStreamer.record, h1, h2]

theorem AudioStreamer.disconnect_trace_grows (s : AudioStreamer) (stopRaises : Bool) :
    s.trace <+: (s.disconnect stopRaises).trace := by
  cases h1 : (s.connection.isSome && s.connected) <;> cases h2 : s.threadJoinable <;>
    cases stopRaises <;>
    simp [AudioStreamer.disconnect, AudioStreamer.record, h1, h2, List.append_assoc]

theorem AudioStreamer.sendAudioData_trace_grows (s : AudioStreamer) (data : List Byte)
    (now : Str) (ec : Option Str) : s.trace <+: (s.sendAudioData data now ec).2.trace := by
  cases h : s.connected <;> cases ec <;>
    simp [AudioStreamer.sendAudioData, AudioStreamer.record, h]

theorem AudioStreamer.tryConnect_trace_grows (s : AudioStreamer) (baseUrl : Str)
    (env : ConnectEnv) :
    s.trace ++ [.getConnection (baseUrl ++ "/api/asr-batch-stream/ws/".toList ++ s.clientId)]
      <+: (s.tryConnect baseUrl env).2.trace := by
  cases hg : env.getConnectionFails
  · cases hr : env.connectRaises
    · rw [AudioStreamer.tryConnect_eq s baseUrl env hg hr]
      refine List.IsPrefix.trans ?_ (AudioStreamer.waitForConnection_trace_grows _ _ _ _)
      refine List.IsPrefix.trans ?_ (AudioStreamer.deliver_trace_grows _ _)
      have hshape : (s.connecting baseUrl).trace =
          (s.trace ++
            [.getConnection (baseUrl ++ "/api/asr-batch-stream/ws/".toList ++ s.clientId)])
          ++ (.connect (some s.created) :: (if s.threadJoinable then [] else [.startThread])) := by
        simp [AudioStreamer.connecting]
      rw [hshape]
      exact List.prefix_append _ _
    · simp [AudioStreamer.tryConnect, AudioStreamer.record, hg, hr]
  · simp [AudioStreamer.tryConnect, AudioStreamer.record, hg]

theorem captureAndSend_trace_grows (cfg : Settings) (s : AudioStreamer) (env : IterationEnv) :
    s.trace <+: (captureAndSend cfg s env).trace := by
  have h1 : s.trace <+:
      ((s.record (.system (recCmd cfg env.filename))).deliver env.duringCapture).trace :=
    (AudioStreamer.record_trace_grows _ _).trans (AudioStreamer.deliver_trace_grows _ _)
  simp only [captureAndSend]
  split
  · exact h1.trans ((AudioStreamer.record_trace_grows _ _).trans
      (AudioStreamer.deliver_trace_grows _ _))
  · have h2 := h1.trans (AudioStreamer.record_trace_grows _ (.fileExists env.filename))
    split
    · exact h2.trans ((AudioStreamer.record_trace_grows _ _).trans
        (AudioStreamer.deliver_trace_grows _ _))
    · have h3 := h2.trans (AudioStreamer.record_trace_grows _ (.readWavFile env.filename))
      split
      · exact h3.trans (AudioStreamer.disconnect_trace_grows _ _)
      · rename_i audioData _
        have h4 := h3.trans (AudioStreamer.sendAudioData_trace_grows _ audioData env.now
          env.sendError)
        split
        · rename_i heq
          rw [heq] at h4
          exact h4.trans (AudioStreamer.disconnect_trace_grows _ _)
        · rename_i heq
          rw [heq] at h4
          exact h4.trans (AudioStreamer.record_trace_grows _ _)

/-- An iteration entered with `connected = false` calls `tryConnect` first: the
first call it makes is `get_connection`. -/
theorem mainIteration_connects_first (cfg : Settings) (s : AudioStreamer) (env : IterationEnv)
    (h : s.isConnected = false) :
    s.trace ++ [.getConnection (cfg.wsUrl ++ "/api/asr-batch-stream/ws/".toList ++ s.clientId)]
      <+: (mainIteration cfg s env).trace := by
  have hp := AudioStreamer.tryConnect_trace_grows s cfg.wsUrl env.connect
  simp only [mainIteration, h, Bool.not_false, if_true]
  split
  · rename_i heq
    rw [heq] at hp
    exact hp.trans ((AudioStreamer.record_trace_grows _ _).trans
      (AudioStreamer.deliver_trace_grows _ _))
  · rename_i heq
    rw [heq] at hp
    exact hp.trans (captureAndSend_trace_grows _ _ _)

/-- C8. Send-failure recovery in the sender loop: when an iteration starts with
the connection open, the capture succeeds, the file is read and `sendAudioData`
raises, the iteration ends with `isConnected()` false, and whatever the outside
world answers the next iteration calls `tryConnect` before anything else: its
first call is `get_connection`, before any capture command and any send. -/
theorem mainIteration_send_failure_recovery (cfg : Settings) (s : AudioStreamer)
    (env next : IterationEnv) (audioData : List Byte) (e : Str)
    (hopen : s.isConnected = true) (hrec : env.recStatus = 0) (hfile : env.fileExists = true)
    (hread : env.readWavFile = .ok audioData)
    (hsend : ((atSend cfg s env).sendAudioData audioData env.now env.sendError).1 = .error e) :
    (mainIteration cfg s env).isConnected = false
      ∧ (mainIteration cfg s env).trace ++
          [.getConnection (cfg.wsUrl ++ "/api/asr-batch-stream/ws/".toList
            ++ (mainIteration cfg s env).clientId)]
        <+: (mainIteration cfg (mainIteration cfg s env) next).trace := by
  have hfinal : (mainIteration cfg s env).isConnected = false := by
    simp only [mainIteration, hopen, Bool.not_true, Bool.false_eq_true, if_false, captureAndSend,
      hrec, ne_eq, not_true_eq_false, hfile, hread]
    split
    · exact AudioStreamer.disconnect_connected _ _
    · rename_i heq
      simp only [atSend] at hsend
      rw [heq] at hsend
      cases hsend
  exact ⟨hfinal, mainIteration_connects_first cfg _ next hfinal⟩

/-- An open sender whose send is refused by the transport: the iteration ends
disconnected and the next one starts with `get_connection`. -/
theorem mainIteration_send_failure_recovery_witness :
    (mainIteration defaultSettings openSender
        (quietIteration (some "invalid state".toList))).isConnected = false
      ∧ (mainIteration defaultSettings openSender
            (quietIteration (some "invalid state".toList))).trace ++
          [.getConnection (defaultSettings.wsUrl ++ "/api/asr-batch-stream/ws/".toList
            ++ (mainIteration defaultSettings openSender
              (quietIteration (some "invalid state".toList))).clientId)]
        <+: (mainIteration defaultSettings
              (mainIteration defaultSettings openSender
                (quietIteration (some "invalid state".toList)))
              (quietIteration none)).trace :=
  mainIteration_send_failure_recovery defaultSettings openSender
    (quietIteration (some "invalid state".toList)) (quietIteration none) [77, 97]
    ("Failed to send data: ".toList ++ "invalid state".toList) rfl rfl rfl rfl rfl

/-- C9. `sendAudioData` fails at once when not open: if `connected` is false
the call raises "WebSocket not connected" and leaves the whole state as it was,
so no frame is submitted and `connected` and `connectionFailed` are unchanged;
if `connected` is true the call submits exactly one frame, the audio frame, and
changes nothing else. -/
theorem sendAudioData_not_connected (s : AudioStreamer) (data : List Byte) (now : Str)
    (ec : Option Str) :
    (s.connected = false →
        s.sendAudioData data now ec = (.error "WebSocket not connected".toList, s))
      ∧ (s.connected = true →
        (s.sendAudioData data now ec).2 =
          { s with trace := s.trace ++
              [.send s.connection (AudioStreamer.audioFrame (base64_encode data) now s.clientId)] }
        ∧ ((s.sendAudioData data now ec).1 = .ok () ↔ ec = none)) := by
  constructor
  · intro h
    simp [AudioStreamer.sendAudioData, h]
  · intro h
    cases ec <;> simp [AudioStreamer.sendAudioData, AudioStreamer.record, h]

/-- A sender that has never connected refuses two bytes and keeps its state. -/
theorem sendAudioData_not_connected_witness :
    AudioStreamer.sendAudioData (AudioStreamer.init "abcdef12".toList) [77, 97]
        "2025-01-01T00:00:00".toList none
      = (.error "WebSocket not connected".toList, AudioStreamer.init "abcdef12".toList) :=
  (sendAudioData_not_connected (AudioStreamer.init "abcdef12".toList) [77, 97]
    "2025-01-01T00:00:00".toList none).1 rfl

/-! ## The handlers of the transport's events -/

/-- C11 as stated fails on the code: in state Failed (`connectionFailed = true`)
the close handler of either client leaves the failure flag set, so the state it
leaves is not Disconnected. -/
theorem onClose_counterexample :
    (AudioStreamer.onClose
        { AudioStreamer.init "abcdef12".toList with connectionFailed := true }).connectionFailed
        = true
      ∧ (WebSocketClient.onClose
        { WebSocketClient.init with connectionFailed := true }).connectionFailed = true := by
  decide

/-- C11, amended.  For both clients and from every prior state: the open
handler leaves `connected = true` and `connectionFailed = false`, the fail
handler leaves `connected = false` and `connectionFailed = true`, and the close
handler leaves `connected = false` and the failure flag as it was. -/
theorem handlers_set_state (s : AudioStreamer) (w : WebSocketClient) :
    (s.onOpen.connected = true ∧ s.onOpen.connectionFailed = false
        ∧ s.onFail.connected = false ∧ s.onFail.connectionFailed = true
        ∧ s.onClose.connected = false ∧ s.onClose.connectionFailed = s.connectionFailed)
      ∧ (w.onOpen.connected = true ∧ w.onOpen.connectionFailed = false
        ∧ w.onFail.connected = false ∧ w.onFail.connectionFailed = true
        ∧ w.onClose.connected = false ∧ w.onClose.connectionFailed = w.connectionFailed) := by
  constructor
  · simp [AudioStreamer.onOpen, AudioStreamer.sendConfig, AudioStreamer.record,
      AudioStreamer.onFail, AudioStreamer.onClose]
  · simp [WebSocketClient.onOpen, WebSocketClient.sendConnectPacket, WebSocketClient.record,
      WebSocketClient.onFail, WebSocketClient.onClose]

/-! ## `disconnect` -/

/-- C12 as stated fails on the code: called in state Failed, `disconnect` of
either client returns with the failure flag still set, so the state is not
Disconnected; and with no thread running it stops and joins nothing. -/
theorem disconnect_counterexample :
    (AudioStreamer.disconnect
        { AudioStreamer.init "abcdef12".toList with connectionFailed := true }
        false).connectionFailed = true
      ∧ (AudioStreamer.disconnect
        { AudioStreamer.init "abcdef12".toList with connectionFailed := true }
        false).trace = []
      ∧ (WebSocketClient.disconnect
        { WebSocketClient.init with connectionFailed := true } false).connectionFailed = true
      ∧ (WebSocketClient.disconnect
        { WebSocketClient.init with connectionFailed := true } false).trace = [] := by
  decide

/-- C12, amended.  For both clients and from every prior state, when
`disconnect` returns `connected` is false and `connectionFailed` is as it was.
A normal-closure close is requested exactly when `connected` was true and a
connection handle is stored.  If the thread was joinable `client.stop()` is
called, and unless that call raises the thread is joined and is no longer
joinable; if no thread was joinable nothing is stopped. -/
theorem disconnect_effect (s : AudioStreamer) (w : WebSocketClient) (stopRaises : Bool) :
    ((s.disconnect stopRaises).connected = false
        ∧ (s.disconnect stopRaises).connectionFailed = s.connectionFailed
        ∧ (s.disconnect stopRaises).threadJoinable = (s.threadJoinable && stopRaises)
        ∧ (s.disconnect stopRaises).trace = s.trace
            ++ (if s.connection.isSome && s.connected then [.close s.connection] else [])
            ++ (if s.threadJoinable then (if stopRaises then [.stop] else [.stop, .join])
                else []))
      ∧ ((w.disconnect stopRaises).connected = false
        ∧ (w.disconnect stopRaises).connectionFailed = w.connectionFailed
        ∧ (w.disconnect stopRaises).threadJoinable = (w.threadJoinable && stopRaises)
        ∧ (w.disconnect stopRaises).trace = w.trace
            ++ (if w.connection.isSome && w.connected then [.close w.connection] else [])
            ++ (if w.threadJoinable then (if stopRaises then [.stop] else [.stop, .join])
                else [])) := by
  constructor
  · cases h1 : (s.connection.isSome && s.connected) <;> cases h2 : s.threadJoinable <;>
      cases stopRaises <;>
      simp [AudioStreamer.disconnect, AudioStreamer.record, h1, h2]
  · cases h1 : (w.connection.isSome && w.connected) <;> cases h2 : w.threadJoinable <;>
      cases stopRaises <;>
      simp [WebSocketClient.disconnect, WebSocketClient.record, h1, h2]

/-! ## The receiver's cleanup -/

/-- C16. Receiver artifact cleanup: for every payload in which the first
`"message":"` is followed by a non-empty text `m` free of double quotes and then
a double quote, so that `m` is the message extracted, `handleNavigationMessage`
calls the speech fetch for `m` with the temporary file; if the fetch failed it
does nothing more, so there is no playback, and if the fetch succeeded it calls
the playback and then the removal of that same file, whatever the playback
returns and also when the removal itself raises.  No exception leaves the
handler, for this payload and for every other one. -/
theorem handleNavigationMessage_cleanup (env : Env) (d pre m rest : Str)
    (hd : d = pre ++ messageKey ++ m ++ '"' :: rest)
    (hfirst : ∀ j, j < pre.length → ¬ messageKey <+: d.drop j)
    (hm : m ≠ []) (hq : '"' ∉ m) :
    handleNavigationMessage env d =
        ⟨.textToSpeech m ("/tmp/tts_".toList ++ env.timestamp ++ ".wav".toList) ::
          (if env.textToSpeech m ("/tmp/tts_".toList ++ env.timestamp ++ ".wav".toList) then
            [.playAudio ("/tmp/tts_".toList ++ env.timestamp ++ ".wav".toList),
             .remove ("/tmp/tts_".toList ++ env.timestamp ++ ".wav".toList)]
           else []), none⟩
      ∧ ∀ payload, (handleNavigationMessage env payload).raised = none := by
  refine ⟨?_, fun _ => rfl⟩
  have heff := handleNavigationMessage_effects env d pre m rest hd hfirst hm hq
  have hraised : (handleNavigationMessage env d).raised = none := rfl
  cases ho : handleNavigationMessage env d with
  | mk effects raised =>
    rw [ho] at heff hraised
    simp only at heff hraised
    rw [heff, hraised]

/-- The payload `{"message":"go"}` when the fetch succeeds, the playback fails
and the removal raises: fetch, playback and removal are all called on the
temporary file, and nothing is raised. -/
theorem handleNavigationMessage_cleanup_witness :
    handleNavigationMessage
        { timestamp := "20250101_000000".toList
          textToSpeech := fun _ _ => true
          playAudio := fun _ => false
          sendRaises := false
          removeRaises := true }
        "\x7b\"message\":\"go\"\x7d".toList
      = ⟨[.textToSpeech "go".toList "/tmp/tts_20250101_000000.wav".toList,
          .playAudio "/tmp/tts_20250101_000000.wav".toList,
          .remove "/tmp/tts_20250101_000000.wav".toList], none⟩ :=
  (handleNavigationMessage_cleanup
    { timestamp := "20250101_000000".toList
      textToSpeech := fun _ _ => true
      playAudio := fun _ => false
      sendRaises := false
      removeRaises := true }
    "\x7b\"message\":\"go\"\x7d".toList "\x7b".toList "go".toList "\x7d".toList
    (by decide) (by decide) (by decide) (by decide)).1

/-! ## The dump server -/

/-- C17. Sink fidelity: for a binary frame with payload `payload`, when the
output file can be opened the file written holds exactly the bytes of the
payload, so it has `payload.length` bytes, and no other file is touched; a frame
whose opcode is not binary leaves all files as they were. -/
theorem handle_message_fidelity (files : FileSystem) (opcode : Opcode) (payload : List Byte)
    (stamp : Str) (canOpen : Bool) :
    (handle_message files .binary payload stamp true)
        ("output_test/rec_".toList ++ stamp ++ ".wav".toList) = some payload
      ∧ ((handle_message files .binary payload stamp true)
        ("output_test/rec_".toList ++ stamp ++ ".wav".toList)).map List.length
          = some payload.length
      ∧ (∀ name, name ≠ "output_test/rec_".toList ++ stamp ++ ".wav".toList →
          (handle_message files .binary payload stamp true) name = files name)
      ∧ (opcode ≠ .binary → handle_message files opcode payload stamp canOpen = files) := by
  refine ⟨?_, ?_, ?_, ?_⟩
  · simp [handle_message]
  · simp [handle_message]
  · intro name hname
    simp only [handle_message, if_true]
    rw [if_neg hname]
  · intro h
    simp [handle_message, h]

/-- A text frame writes no file. -/
theorem handle_message_fidelity_witness :
    handle_message (fun _ => none) .text [77, 97] "20250101_000000".toList true
      = fun _ => none :=
  (handle_message_fidelity (fun _ => none) .text [77, 97] "20250101_000000".toList true).2.2.2
    (by decide)

/-! ## Where the receiver looks for the marker -/

theorem findAux_comma_none (p : Str) (h : ',' ∉ p) : findAux [','] p = none := by
  apply findAux_eq_none_of_not_infix
  intro hin
  obtain ⟨a, b, hab⟩ := hin
  apply h
  rw [← hab]
  simp

/-- C20. The marker and the message field are searched only after the first
comma of a Message payload: for every frame `'4' ++ p` in which `p` has no
comma, or in which the part of `p` after its first comma does not hold the
literal `"navigation"`, `handleServerMessage` has no effect at all, whatever the
part of `p` before that comma holds. -/
theorem handleServerMessage_marker_after_comma (env : Env) (p : Str)
    (h : ',' ∉ p ∨ ∃ a b, p = a ++ ',' :: b ∧ ',' ∉ a ∧ ¬ navigationMarker <:+: b) :
    handleServerMessage env ('4' :: p) = ⟨[], none⟩
      ∧ extracted (handleServerMessage env ('4' :: p)) = [] := by
  have key : handleServerMessage env ('4' :: p) = ⟨[], none⟩ := by
    rw [handleServerMessage_four]
    rcases h with h | ⟨a, b, hp, ha, hb⟩
    · rw [find_zero, findAux_comma_none p h]
    · subst hp
      rw [find_zero, findAux_singleton_append _ _ _ ha]
      have hdr : (a ++ ',' :: b).drop (a.length + 1) = b := by
        have : a ++ ',' :: b = (a ++ [',']) ++ b := by simp
        rw [this]
        have hl : (a ++ [',']).length = a.length + 1 := by simp
        rw [← hl]
        exact List.drop_left _ _
      have hno : find b navigationMarker 0 = none := by
        rw [find_zero]
        exact findAux_eq_none_of_not_infix _ _ hb
      simp [hdr, hno]
  exact ⟨key, by rw [key]; rfl⟩

/-- The default-namespace frame `42["navigation",{"message":"go"}]`: the marker
stands before the first comma, the message field after it, and nothing is
extracted. -/
theorem handleServerMessage_marker_after_comma_witness :
    navigationMarker <:+: "2[\"navigation\",\x7b\"message\":\"go\"\x7d]".toList
      ∧ handleServerMessage
          { timestamp := [], textToSpeech := fun _ _ => true, playAudio := fun _ => true,
            sendRaises := false, removeRaises := false }
          "42[\"navigation\",\x7b\"message\":\"go\"\x7d]".toList = ⟨[], none⟩ :=
  ⟨by decide,
    (handleServerMessage_marker_after_comma _ "2[\"navigation\",\x7b\"message\":\"go\"\x7d]".toList
      (Or.inr ⟨"2[\"navigation\"".toList, "\x7b\"message\":\"go\"\x7d]".toList, by decide,
        by decide, by decide⟩)).1⟩

/-! ## The flags of the sender along a run -/

namespace AudioStreamer

theorem handle_consistent (s : AudioStreamer) (e : Event) :
    ((s.handle e).connected && (s.handle e).connectionFailed) = false := by
  cases e
  · simp [handle, onOpen, sendConfig, record]
  · simp [handle, onClose]
  · simp [handle, onFail]
  · simp [handle, onRunError]

theorem deliver_consistent (events : List Event) :
    ∀ s : AudioStreamer, (s.connected && s.connectionFailed) = false →
      ((s.deliver events).connected && (s.deliver events).connectionFailed) = false := by
  induction events with
  | nil => intro s h; exact h
  | cons e es ih =>
    intro s _
    rw [deliver_cons]
    exact ih _ (handle_consistent s e)

theorem waitForConnection_consistent (slots : Nat → List Event) :
    ∀ (n i : Nat) (s : AudioStreamer), (s.connected && s.connectionFailed) = false →
      ((waitForConnection slots n i s).connected
        && (waitForConnection slots n i s).connectionFailed) = false := by
  intro n
  induction n with
  | zero => intro i s h; exact h
  | succ n ih =>
    intro i s h
    simp only [waitForConnection]
    split
    · exact ih _ _ (deliver_consistent _ _ h)
    · exact h

theorem tryConnect_consistent (s : AudioStreamer) (baseUrl : Str) (env : ConnectEnv)
    (h : (s.connected && s.connectionFailed) = false) :
    ((s.tryConnect baseUrl env).2.connected && (s.tryConnect baseUrl env).2.connectionFailed)
      = false := by
  cases hg : env.getConnectionFails
  · cases hr : env.connectRaises
    · rw [tryConnect_eq s baseUrl env hg hr]
      exact waitForConnection_consistent _ _ _ _ (deliver_consistent _ _ h)
    · simpa [tryConnect, record, hg, hr] using h
  · simpa [tryConnect, record, hg] using h

theorem disconnect_consistent (s : AudioStreamer) (stopRaises : Bool) :
    ((s.disconnect stopRaises).connected && (s.disconnect stopRaises).connectionFailed)
      = false := by
  rw [disconnect_connected]
  rfl

/-- A failure flag that is set stays set, and `connected` stays false, as long
as no open event arrives. -/
theorem deliver_failed_sticky (events : List Event) :
    ∀ s : AudioStreamer, s.connected = false → s.connectionFailed = true →
      Event.onOpen ∉ events →
      (s.deliver events).connected = false ∧ (s.deliver events).connectionFailed = true := by
  induction events with
  | nil => intro s h1 h2 _; exact ⟨h1, h2⟩
  | cons e es ih =>
    intro s h1 h2 hno
    rw [deliver_cons]
    have hes : Event.onOpen ∉ es := fun hm => hno (List.mem_cons_of_mem _ hm)
    cases e
    · exact absurd (List.mem_cons_self _ _) hno
    · exact ih _ rfl h2 hes
    · exact ih _ rfl rfl hes
    · exact ih _ rfl rfl hes

end AudioStreamer

theorem WebSocketClient.ws_disconnect_connected (s : WebSocketClient) (stopRaises : Bool) :
    (s.disconnect stopRaises).connected = false := by
  cases h1 : (s.connection.isSome && s.connected) <;> cases h2 : s.threadJoinable <;>
    cases stopRaises <;>
    simp [WebSocketClient.disconnect, WebSocketClient.record, h1, h2]

/-! ## The flags of the receiver along a run -/

namespace WebSocketClient

theorem ws_handle_consistent (s : WebSocketClient) (e : Event) :
    ((s.handle e).connected && (s.handle e).connectionFailed) = false := by
  cases e
  · simp [handle, onOpen, sendConnectPacket, record]
  · simp [handle, onClose]
  · simp [handle, onFail]
  · simp [handle, onRunError]

theorem ws_deliver_consistent (events : List Event) :
    ∀ s : WebSocketClient, (s.connected && s.connectionFailed) = false →
      ((s.deliver events).connected && (s.deliver events).connectionFailed) = false := by
  induction events with
  | nil => intro s h; exact h
  | cons e es ih =>
    intro s _
    rw [ws_deliver_cons]
    exact ih _ (ws_handle_consistent s e)

theorem ws_waitForConnection_consistent (slots : Nat → List Event) :
    ∀ (n i : Nat) (s : WebSocketClient), (s.connected && s.connectionFailed) = false →
      ((waitForConnection slots n i s).connected
        && (waitForConnection slots n i s).connectionFailed) = false := by
  intro n
  induction n with
  | zero => intro i s h; exact h
  | succ n ih =>
    intro i s h
    simp only [waitForConnection]
    split
    · exact ih _ _ (ws_deliver_consistent _ _ h)
    · exact h

theorem ws_tryConnect_consistent (s : WebSocketClient) (baseUrl : Str) (env : ConnectEnv)
    (h : (s.connected && s.connectionFailed) = false) :
    ((s.tryConnect baseUrl env).2.connected && (s.tryConnect baseUrl env).2.connectionFailed)
      = false := by
  cases hg : env.getConnectionFails
  · cases hr : env.connectRaises
    · rw [ws_tryConnect_eq s baseUrl env hg hr]
      exact ws_waitForConnection_consistent _ _ _ _ (ws_deliver_consistent _ _ h)
    · simpa [tryConnect, record, hg, hr] using h
  · simpa [tryConnect, record, hg] using h

theorem ws_disconnect_consistent (s : WebSocketClient) (stopRaises : Bool) :
    ((s.disconnect stopRaises).connected && (s.disconnect stopRaises).connectionFailed)
      = false := by
  rw [ws_disconnect_connected]
  rfl

/-- A failure flag that is set stays set, and `connected` stays false, as long
as no open event arrives. -/
theorem ws_deliver_failed_sticky (events : List Event) :
    ∀ s : WebSocketClient, s.connected = false → s.connectionFailed = true →
      Event.onOpen ∉ events →
      (s.deliver events).connected = false ∧ (s.deliver events).connectionFailed = true := by
  induction events with
  | nil => intro s h1 h2 _; exact ⟨h1, h2⟩
  | cons e es ih =>
    intro s h1 h2 hno
    rw [ws_deliver_cons]
    have hes : Event.onOpen ∉ es := fun hm => hno (List.mem_cons_of_mem _ hm)
    cases e
    · exact absurd (List.mem_cons_self _ _) hno
    · exact ih _ rfl h2 hes
    · exact ih _ rfl rfl hes
    · exact ih _ rfl rfl hes

end WebSocketClient

theorem AudioStreamer.disconnect_connectionFailed (s : AudioStreamer) (stopRaises : Bool) :
    (s.disconnect stopRaises).connectionFailed = s.connectionFailed := by
  cases h1 : (s.connection.isSome && s.connected) <;> cases h2 : s.threadJoinable <;>
    cases stopRaises <;>
    simp [AudioStreamer.disconnect, AudioStreamer.record, h1, h2]

theorem WebSocketClient.ws_disconnect_connectionFailed (s : WebSocketClient)
    (stopRaises : Bool) :
    (s.disconnect stopRaises).connectionFailed = s.connectionFailed := by
  cases h1 : (s.connection.isSome && s.connected) <;> cases h2 : s.threadJoinable <;>
    cases stopRaises <;>
    simp [WebSocketClient.disconnect, WebSocketClient.record, h1, h2]

theorem AudioStreamer.step_consistent (s : AudioStreamer) (step : SenderStep)
    (h : (s.connected && s.connectionFailed) = false) :
    ((s.step step).connected && (s.step step).connectionFailed) = false := by
  cases step with
  | event e => exact AudioStreamer.handle_consistent s e
  | tryConnect baseUrl env => exact AudioStreamer.tryConnect_consistent s baseUrl env h
  | disconnect stopRaises => exact AudioStreamer.disconnect_consistent s stopRaises
  | sendConfig =>
    cases hc : s.connected <;>
      simp_all [AudioStreamer.step, AudioStreamer.sendConfig, AudioStreamer.record]
  | sendAudioData data now ec =>
    cases hc : s.connected <;> cases ec <;>
      simp_all [AudioStreamer.step, AudioStreamer.sendAudioData, AudioStreamer.record]

theorem WebSocketClient.ws_step_consistent (s : WebSocketClient) (step : ReceiverStep)
    (h : (s.connected && s.connectionFailed) = false) :
    ((s.step step).connected && (s.step step).connectionFailed) = false := by
  cases step with
  | event e => exact WebSocketClient.ws_handle_consistent s e
  | tryConnect baseUrl env => exact WebSocketClient.ws_tryConnect_consistent s baseUrl env h
  | disconnect stopRaises => exact WebSocketClient.ws_disconnect_consistent s stopRaises
  | sendConnectPacket =>
    cases hc : s.connected <;>
      simp_all [WebSocketClient.step, WebSocketClient.sendConnectPacket, WebSocketClient.record]

theorem AudioStreamer.run_consistent (steps : List SenderStep) :
    ∀ s : AudioStreamer, (s.connected && s.connectionFailed) = false →
      ((s.run steps).connected && (s.run steps).connectionFailed) = false := by
  induction steps with
  | nil => intro s h; exact h
  | cons step rest ih =>
    intro s h
    exact ih _ (AudioStreamer.step_consistent s step h)

theorem WebSocketClient.ws_run_consistent (steps : List ReceiverStep) :
    ∀ s : WebSocketClient, (s.connected && s.connectionFailed) = false →
      ((s.run steps).connected && (s.run steps).connectionFailed) = false := by
  induction steps with
  | nil => intro s h; exact h
  | cons step rest ih =>
    intro s h
    exact ih _ (WebSocketClient.ws_step_consistent s step h)

/-- C18. State invariant of both clients: from the state the constructor leaves,
after every finite sequence of open, close and fail events, thread errors, and
calls of `tryConnect`, `disconnect`, `sendConfig` or `sendConnectPacket`, and
`sendAudioData`, the flags `connected` and `connectionFailed` are not both
true. -/
theorem flags_never_both_true (clientId : Str) (senderSteps : List SenderStep)
    (receiverSteps : List ReceiverStep) :
    ¬ (((AudioStreamer.init clientId).run senderSteps).connected = true
        ∧ ((AudioStreamer.init clientId).run senderSteps).connectionFailed = true)
      ∧ ¬ ((WebSocketClient.init.run receiverSteps).connected = true
        ∧ (WebSocketClient.init.run receiverSteps).connectionFailed = true) := by
  have hs := AudioStreamer.run_consistent senderSteps (AudioStreamer.init clientId) rfl
  have hw := WebSocketClient.ws_run_consistent receiverSteps WebSocketClient.init rfl
  constructor
  · rintro ⟨h1, h2⟩
    rw [h1, h2] at hs
    exact absurd hs (by decide)
  · rintro ⟨h1, h2⟩
    rw [h1, h2] at hw
    exact absurd hw (by decide)

/-- C19. The failure flag is cleared only by the open handler.  For both
clients, in a state with `connected = false` and `connectionFailed = true`:
`disconnect` and the close handler leave the flag set; and a call of
`tryConnect` in which creating the connection succeeds and no open event is
delivered before the first loop test makes no sleep, returns false and leaves
the flag set. -/
theorem connectionFailed_sticky (s : AudioStreamer) (w : WebSocketClient) (baseUrl : Str)
    (env : ConnectEnv) (stopRaises : Bool)
    (hs1 : s.connected = false) (hs2 : s.connectionFailed = true)
    (hw1 : w.connected = false) (hw2 : w.connectionFailed = true)
    (hg : env.getConnectionFails = false) (hr : env.connectRaises = false)
    (h0 : Event.onOpen ∉ env.slots 0) :
    ((s.disconnect stopRaises).connectionFailed = true
        ∧ s.onClose.connectionFailed = true
        ∧ (s.tryConnect baseUrl env).1 = false
        ∧ (s.tryConnect baseUrl env).2.connectionFailed = true
        ∧ (s.tryConnect baseUrl env).2.trace.count (.sleep 100) = s.trace.count (.sleep 100))
      ∧ ((w.disconnect stopRaises).connectionFailed = true
        ∧ w.onClose.connectionFailed = true
        ∧ (w.tryConnect baseUrl env).1 = false
        ∧ (w.tryConnect baseUrl env).2.connectionFailed = true
        ∧ (w.tryConnect baseUrl env).2.trace.count (.sleep 100)
            = w.trace.count (.sleep 100)) := by
  constructor
  · have hd := AudioStreamer.disconnect_connectionFailed s stopRaises
    have hsl := AudioStreamer.deliver_failed_sticky (env.slots 0) (s.connecting baseUrl)
      hs1 hs2 h0
    refine ⟨by rw [hd, hs2], hs2, ?_, ?_, ?_⟩
    all_goals
      rw [AudioStreamer.tryConnect_eq s baseUrl env hg hr,
        AudioStreamer.waitForConnection_stop _ _ _ _ (Or.inr hsl.2)]
    · exact hsl.1
    · exact hsl.2
    · rw [AudioStreamer.deliver_count_sleep, AudioStreamer.connecting_count_sleep]
  · have hd := WebSocketClient.ws_disconnect_connectionFailed w stopRaises
    have hsl := WebSocketClient.ws_deliver_failed_sticky (env.slots 0) (w.connecting baseUrl)
      hw1 hw2 h0
    refine ⟨by rw [hd, hw2], hw2, ?_, ?_, ?_⟩
    all_goals
      rw [WebSocketClient.ws_tryConnect_eq w baseUrl env hg hr,
        WebSocketClient.ws_waitForConnection_stop _ _ _ _ (Or.inr hsl.2)]
    · exact hsl.1
    · exact hsl.2
    · rw [WebSocketClient.ws_deliver_count_sleep, WebSocketClient.ws_connecting_count_sleep]

/-! ## What the calls of the sender leave alone -/

namespace AudioStreamer

theorem handle_keeps (s : AudioStreamer) (e : Event) (file : Str) :
    (s.handle e).clientId = s.clientId
      ∧ (s.handle e).trace.count (.remove file) = s.trace.count (.remove file) := by
  cases e <;> simp [handle, onOpen, onClose, onFail, onRunError, sendConfig, record,
    List.count_append]

theorem deliver_keeps (events : List Event) (file : Str) :
    ∀ s : AudioStreamer, (s.deliver events).clientId = s.clientId
      ∧ (s.deliver events).trace.count (.remove file) = s.trace.count (.remove file) := by
  induction events with
  | nil => intro s; exact ⟨rfl, rfl⟩
  | cons e es ih =>
    intro s
    rw [deliver_cons]
    have h1 := ih (s.handle e)
    have h2 := handle_keeps s e file
    exact ⟨h1.1.trans h2.1, h1.2.trans h2.2⟩

theorem record_keeps (s : AudioStreamer) (a : Action) (file : Str) (h : a ≠ .remove file) :
    (s.record a).clientId = s.clientId
      ∧ (s.record a).trace.count (.remove file) = s.trace.count (.remove file) := by
  refine ⟨rfl, ?_⟩
  simp only [record, List.count_append, List.count_singleton]
  have : (a == Action.remove file) = false := by simpa using h
  simp [this]

theorem waitForConnection_keeps (slots : Nat → List Event) (file : Str) :
    ∀ (n i : Nat) (s : AudioStreamer),
      (waitForConnection slots n i s).clientId = s.clientId
        ∧ (waitForConnection slots n i s).trace.count (.remove file)
            = s.trace.count (.remove file) := by
  intro n
  induction n with
  | zero => intro i s; exact ⟨rfl, rfl⟩
  | succ n ih =>
    intro i s
    simp only [waitForConnection]
    split
    · have h1 := ih (i + 1) ((s.record (.sleep 100)).deliver (slots (i + 1)))
      have h2 := deliver_keeps (slots (i + 1)) file (s.record (.sleep 100))
      have h3 := record_keeps s (.sleep 100) file (by simp)
      exact ⟨h1.1.trans (h2.1.trans h3.1), h1.2.trans (h2.2.trans h3.2)⟩
    · exact ⟨rfl, rfl⟩

theorem connecting_keeps (s : AudioStreamer) (baseUrl file : Str) :
    (s.connecting baseUrl).clientId = s.clientId
      ∧ (s.connecting baseUrl).trace.count (.remove file) = s.trace.count (.remove file) := by
  cases hj : s.threadJoinable <;> simp [connecting, hj, List.count_append]

theorem tryConnect_keeps (s : AudioStreamer) (baseUrl : Str) (env : ConnectEnv) (file : Str) :
    (s.tryConnect baseUrl env).2.clientId = s.clientId
      ∧ (s.tryConnect baseUrl env).2.trace.count (.remove file)
          = s.trace.count (.remove file) := by
  cases hg : env.getConnectionFails
  · cases hr : env.connectRaises
    · rw [tryConnect_eq s baseUrl env hg hr]
      have h1 := waitForConnection_keeps env.slots file 10 0
        ((s.connecting baseUrl).deliver (env.slots 0))
      have h2 := deliver_keeps (env.slots 0) file (s.connecting baseUrl)
      have h3 := connecting_keeps s baseUrl file
      exact ⟨h1.1.trans (h2.1.trans h3.1), h1.2.trans (h2.2.trans h3.2)⟩
    · simp [tryConnect, record, hg, hr, List.count_append]
  · simp [tryConnect, record, hg, List.count_append]

theorem disconnect_keeps (s : AudioStreamer) (stopRaises : Bool) (file : Str) :
    (s.disconnect stopRaises).clientId = s.clientId
      ∧ (s.disconnect stopRaises).trace.count (.remove file) = s.trace.count (.remove file) := by
  cases h1 : (s.connection.isSome && s.connected) <;> cases h2 : s.threadJoinable <;>
    cases stopRaises <;>
    simp [disconnect, record, h1, h2, List.count_append]

theorem sendAudioData_keeps (s : AudioStreamer) (data : List Byte) (now : Str)
    (ec : Option Str) (file : Str) :
    (s.sendAudioData data now ec).2.clientId = s.clientId
      ∧ (s.sendAudioData data now ec).2.trace.count (.remove file)
          = s.trace.count (.remove file) := by
  cases h : s.connected <;> cases ec <;>
    simp [sendAudioData, record, h, List.count_append]

theorem sendConfig_keeps (s : AudioStreamer) (file : Str) :
    s.sendConfig.clientId = s.clientId
      ∧ s.sendConfig.trace.count (.remove file) = s.trace.count (.remove file) := by
  cases h : s.connected <;> simp [sendConfig, record, h, List.count_append]

theorem run_clientId (steps : List SenderStep) :
    ∀ s : AudioStreamer, (s.run steps).clientId = s.clientId := by
  induction steps with
  | nil => intro s; rfl
  | cons step rest ih =>
    intro s
    have hstep : (s.step step).clientId = s.clientId := by
      cases step with
      | event e => exact (handle_keeps s e []).1
      | tryConnect baseUrl env => exact (tryConnect_keeps s baseUrl env []).1
      | disconnect stopRaises => exact (disconnect_keeps s stopRaises []).1
      | sendConfig => exact (sendConfig_keeps s []).1
      | sendAudioData data now ec => exact (sendAudioData_keeps s data now ec []).1
    exact (ih (s.step step)).trans hstep

end AudioStreamer

/-! ## The configuration frame -/

theorem AudioStreamer.handle_configCount (s : AudioStreamer) (e : Event) :
    configCount (s.handle e).trace = configCount s.trace + (if e = .onOpen then 1 else 0) := by
  cases e <;> simp [AudioStreamer.handle, AudioStreamer.onOpen, AudioStreamer.onClose,
    AudioStreamer.onFail, AudioStreamer.onRunError, AudioStreamer.sendConfig,
    AudioStreamer.record, configCount, isConfigSend, List.countP_append]

/-- C13 as stated fails on the code: the sender connects and the transport
opens during the first polling interval, the connection is closed, and the
sender connects again and the transport opens again; the configuration frame has
been submitted twice, once at each open event. -/
theorem sendConfig_once_counterexample :
    configCount ((AudioStreamer.init "abcdef12".toList).run
      [.tryConnect "wss://host".toList
          { getConnectionFails := false, connectRaises := false,
            slots := eventsAt 1 [.onOpen] },
        .event .onClose,
        .tryConnect "wss://host".toList
          { getConnectionFails := false, connectRaises := false,
            slots := eventsAt 1 [.onOpen] }]).trace = 2 := by
  decide

/-- C13, amended.  The configuration frame is submitted once at every open
event, not only at the first: each open event submits exactly one configuration
frame, on the stored connection, and over every sequence of open, close and fail
events and thread errors the number of configuration frames submitted is the
number of open events. -/
theorem sendConfig_at_every_open (s : AudioStreamer) (events : List Event) :
    s.onOpen.trace = s.trace ++ [.send s.connection AudioStreamer.configFrame]
      ∧ configCount (s.deliver events).trace
          = configCount s.trace + events.count .onOpen := by
  constructor
  · simp [AudioStreamer.onOpen, AudioStreamer.sendConfig, AudioStreamer.record]
  · induction events generalizing s with
    | nil => rfl
    | cons e es ih =>
      rw [AudioStreamer.deliver_cons, ih, AudioStreamer.handle_configCount]
      cases e
      · simp [List.count_cons]
        omega
      · simp [List.count_cons]
      · simp [List.count_cons]
      · simp [List.count_cons]

/-! ## The audio frame -/

/-- C14. Audio frame format: in every state that a run of the sender reaches
from the constructor's state with client id `clientId`, a call of
`sendAudioData` while connected submits exactly one frame, the text
`{"type":"audio","data":"<base64 of the bytes>","timestamp":"<now>","client_id":"<clientId>"}`
with the four keys in that order and no added whitespace; the client id of the
state is still the one of the constructor. -/
theorem sendAudioData_frame_format (clientId : Str) (steps : List SenderStep)
    (data : List Byte) (now : Str) (ec : Option Str)
    (h : ((AudioStreamer.init clientId).run steps).connected = true) :
    ((AudioStreamer.init clientId).run steps).clientId = clientId
      ∧ (((AudioStreamer.init clientId).run steps).sendAudioData data now ec).2.trace =
        ((AudioStreamer.init clientId).run steps).trace ++
          [.send ((AudioStreamer.init clientId).run steps).connection
            ("\x7b\"type\":\"audio\",\"data\":\"".toList ++ base64_encode data
              ++ "\",\"timestamp\":\"".toList ++ now
              ++ "\",\"client_id\":\"".toList ++ clientId ++ "\"\x7d".toList)] := by
  have hid := AudioStreamer.run_clientId steps (AudioStreamer.init clientId)
  refine ⟨hid, ?_⟩
  have hframe : AudioStreamer.audioFrame (base64_encode data) now clientId =
      "\x7b\"type\":\"audio\",\"data\":\"".toList ++ base64_encode data
        ++ "\",\"timestamp\":\"".toList ++ now
        ++ "\",\"client_id\":\"".toList ++ clientId ++ "\"\x7d".toList := by
    simp [AudioStreamer.audioFrame]
  rw [← hframe]
  rw [show (AudioStreamer.init clientId).clientId = clientId from rfl] at hid
  cases ec <;> simp [AudioStreamer.sendAudioData, AudioStreamer.record, h, hid]

/-- The first connection of a sender opens during the first polling interval;
the frame of the bytes `M`, `a` is then the expected text. -/
theorem sendAudioData_frame_format_witness :
    (((AudioStreamer.init "abcdef12".toList).run
        [.tryConnect "wss://host".toList
          { getConnectionFails := false, connectRaises := false,
            slots := eventsAt 1 [.onOpen] }]).sendAudioData [77, 97]
        "2025-01-01T00:00:00".toList none).2.trace =
      ((AudioStreamer.init "abcdef12".toList).run
        [.tryConnect "wss://host".toList
          { getConnectionFails := false, connectRaises := false,
            slots := eventsAt 1 [.onOpen] }]).trace ++
        [.send ((AudioStreamer.init "abcdef12".toList).run
            [.tryConnect "wss://host".toList
              { getConnectionFails := false, connectRaises := false,
                slots := eventsAt 1 [.onOpen] }]).connection
          ("\x7b\"type\":\"audio\",\"data\":\"".toList ++ base64_encode [77, 97]
            ++ "\",\"timestamp\":\"".toList ++ "2025-01-01T00:00:00".toList
            ++ "\",\"client_id\":\"".toList ++ "abcdef12".toList ++ "\"\x7d".toList)] :=
  (sendAudioData_frame_format "abcdef12".toList
    [.tryConnect "wss://host".toList
      { getConnectionFails := false, connectRaises := false, slots := eventsAt 1 [.onOpen] }]
    [77, 97] "2025-01-01T00:00:00".toList none (by decide)).2

/-! ## The recorded file -/

theorem mainIteration_eq_captureAndSend (cfg : Settings) (s : AudioStreamer)
    (env : IterationEnv)
    (hreach : s.isConnected = true ∨ (s.tryConnect cfg.wsUrl env.connect).1 = true) :
    mainIteration cfg s env = captureAndSend cfg (atCapture cfg s env) env := by
  cases hc : s.isConnected
  · have ht : (s.tryConnect cfg.wsUrl env.connect).1 = true := by
      rcases hreach with h | h
      · rw [hc] at h
        cases h
      · exact h
    simp only [mainIteration, atCapture, hc, Bool.not_false, if_true, Bool.false_eq_true,
      if_false]
    split
    · rename_i heq
      rw [heq] at ht
      cases ht
    · rename_i heq
      rw [heq]
  · simp [mainIteration, atCapture, hc]

theorem atCapture_count_remove (cfg : Settings) (s : AudioStreamer) (env : IterationEnv)
    (file : Str) :
    (atCapture cfg s env).trace.count (.remove file) = s.trace.count (.remove file) := by
  simp only [atCapture]
  split
  · rfl
  · exact (AudioStreamer.tryConnect_keeps s cfg.wsUrl env.connect file).2

theorem atSend_count_remove (cfg : Settings) (s : AudioStreamer) (env : IterationEnv)
    (file : Str) :
    (atSend cfg s env).trace.count (.remove file) = s.trace.count (.remove file) := by
  simp only [atSend]
  rw [(AudioStreamer.record_keeps _ (.readWavFile env.filename) file (by simp)).2,
    (AudioStreamer.record_keeps _ (.fileExists env.filename) file (by simp)).2,
    (AudioStreamer.deliver_keeps env.duringCapture file _).2,
    (AudioStreamer.record_keeps _ (.system (recCmd cfg env.filename)) file (by simp)).2]

/-- C15. Sender artifact retention: in every iteration of the loop of `main`
that reaches the capture, in which the capture command returns 0 and the
recorded file exists: if `readWavFile` raises or `sendAudioData` raises, the
iteration removes no file at all, so the recorded file is still there at its
end; and if both succeed, the removal of the recorded file is the last call of
the iteration, made after `sendAudioData` has returned. -/
theorem mainIteration_file_retention (cfg : Settings) (s : AudioStreamer) (env : IterationEnv)
    (hreach : s.isConnected = true ∨ (s.tryConnect cfg.wsUrl env.connect).1 = true)
    (hrec : env.recStatus = 0) (hfile : env.fileExists = true) :
    (∀ e, env.readWavFile = .error e → ∀ file,
        (mainIteration cfg s env).trace.count (.remove file) = s.trace.count (.remove file))
      ∧ (∀ audioData, env.readWavFile = .ok audioData →
        (∀ e, ((atSend cfg (atCapture cfg s env) env).sendAudioData audioData env.now
              env.sendError).1 = .error e → ∀ file,
            (mainIteration cfg s env).trace.count (.remove file)
              = s.trace.count (.remove file))
        ∧ (((atSend cfg (atCapture cfg s env) env).sendAudioData audioData env.now
              env.sendError).1 = .ok () →
            (mainIteration cfg s env).trace =
              ((atSend cfg (atCapture cfg s env) env).sendAudioData audioData env.now
                env.sendError).2.trace ++ [.remove env.filename])) := by
  rw [mainIteration_eq_captureAndSend cfg s env hreach]
  refine ⟨?_, ?_⟩
  · intro e hread file
    simp only [captureAndSend, hrec, ne_eq, not_true_eq_false, if_false, hfile, Bool.not_true,
      Bool.false_eq_true, hread]
    rw [(AudioStreamer.disconnect_keeps _ _ file).2]
    have := atSend_count_remove cfg (atCapture cfg s env) env file
    simp only [atSend] at this
    rw [this, atCapture_count_remove]
  · intro audioData hread
    refine ⟨?_, ?_⟩
    · intro e hsend file
      simp only [captureAndSend, hrec, ne_eq, not_true_eq_false, if_false, hfile, Bool.not_true,
        Bool.false_eq_true, hread]
      have hk := (AudioStreamer.sendAudioData_keeps (atSend cfg (atCapture cfg s env) env)
        audioData env.now env.sendError file).2
      simp only [atSend] at hsend hk
      split
      · rename_i heq
        rw [heq] at hk
        rw [(AudioStreamer.disconnect_keeps _ _ file).2, hk]
        have := atSend_count_remove cfg (atCapture cfg s env) env file
        simp only [atSend] at this
        rw [this, atCapture_count_remove]
      · rename_i heq
        rw [heq] at hsend
        cases hsend
    · intro hsend
      simp only [captureAndSend, hrec, ne_eq, not_true_eq_false, if_false, hfile, Bool.not_true,
        Bool.false_eq_true, hread]
      simp only [atSend] at hsend
      split
      · rename_i heq
        rw [heq] at hsend
        cases hsend
      · rename_i heq
        simp only [atSend]
        rw [heq]
        rfl

/-- An open sender, a good capture and a good send: the removal of the recorded
file is the last call of the iteration. -/
theorem mainIteration_file_retention_witness :
    (mainIteration defaultSettings openSender (quietIteration none)).trace =
      ((atSend defaultSettings (atCapture defaultSettings openSender (quietIteration none))
          (quietIteration none)).sendAudioData [77, 97] (quietIteration none).now
          (quietIteration none).sendError).2.trace
        ++ [.remove (quietIteration none).filename] :=
  ((mainIteration_file_retention defaultSettings openSender (quietIteration none)
    (Or.inl rfl) rfl rfl).2 [77, 97] rfl).2 rfl

/-- A client of each kind in state Failed calls `tryConnect`, and the transport
opens during what would be the first polling interval: no sleep, result
false. -/
theorem connectionFailed_sticky_witness :
    (AudioStreamer.tryConnect
        { AudioStreamer.init "abcdef12".toList with connectionFailed := true }
        "wss://host".toList
        { getConnectionFails := false, connectRaises := false,
          slots := eventsAt 1 [.onOpen] }).1 = false
      ∧ (WebSocketClient.tryConnect { WebSocketClient.init with connectionFailed := true }
        "wss://host".toList
        { getConnectionFails := false, connectRaises := false,
          slots := eventsAt 1 [.onOpen] }).1 = false :=
  have h := connectionFailed_sticky
    { AudioStreamer.init "abcdef12".toList with connectionFailed := true }
    { WebSocketClient.init with connectionFailed := true } "wss://host".toList
    { getConnectionFails := false, connectRaises := false, slots := eventsAt 1 [.onOpen] }
    false rfl rfl rfl rfl rfl rfl (by decide)
  ⟨h.1.2.2.1, h.2.2.2.1⟩

end ConversationFlow
